import Mathlib

/-!
Verification of the Blue Carbon Registry and MRV system.

The development contains three shallow embeddings:

- namespace BCMain: the full registry contract in
  src/contracts/BlueCarbon Registry.sol.  Solidity uint256 values are
  modelled as Nat (Solidity 0.8 checked arithmetic reverts on overflow
  rather than wrapping; every run that does not revert agrees with the
  unbounded-Nat model, and the claims proved here are insensitive to the
  astronomic overflow boundary).  Addresses are Nat, with 0 playing the
  role of address(0).  A mapping is a total function with a zero-struct
  default, exactly as in Solidity storage.  A reverting call leaves the
  state unchanged, which is what applyOp does on an error result.
  Role modifiers (onlyRole) and whenNotPaused only restrict which call
  sequences can occur; all properties proved here are universally
  quantified over call sequences, so dropping the guards only
  strengthens the theorems.

- namespace BCSimple: the simplified registry contract in
  src/unnamed/part_000 (contract BlueCarbonRegistry with the drifting
  totalVerifiedProjects counter).

- namespace Rest: the Express REST layer, src/routes/api.js together
  with src/middleware/validation.js.  JS numbers on the relevant code
  paths are only stored, compared and counted, never rounded, so they
  are modelled as Rat; JS records are structures with "" defaults for
  absent string fields.
-/

namespace BCMain

/-- Pointwise update of a mapping, the model of a Solidity storage write. -/
def upd {α : Type} (f : Nat → α) (k : Nat) (v : α) : Nat → α :=
  fun x => if x = k then v else f x

inductive ProjectStatus
  | Pending
  | Active
  | Verified
  | Suspended
  | Completed
  | Rejected
deriving DecidableEq, Repr

inductive EcosystemType
  | Mangrove
  | Seagrass
  | SaltMarsh
  | TidalMarsh
  | CoastalWetland
deriving DecidableEq, Repr

inductive StakeholderType
  | NGO
  | Community
  | Panchayat
  | Researcher
  | Government
  | Private
deriving DecidableEq, Repr

inductive MRVStatus
  | Submitted
  | UnderReview
  | Verified
  | Rejected
  | RequiresUpdate
deriving DecidableEq, Repr

structure Project where
  id : Nat
  name : String
  description : String
  location : String
  coordinates : String
  area : Nat
  ecosystemType : EcosystemType
  owner : Nat
  status : ProjectStatus
  createdAt : Nat
  lastUpdated : Nat
  verifiedAt : Nat
  verifiedBy : Nat
  documentHashes : List String
  estimatedCarbonCredits : Nat
  actualCarbonCredits : Nat
  totalAreaRestored : Nat
  isActive : Bool
deriving DecidableEq, Repr

structure Stakeholder where
  id : Nat
  stakeholderAddress : Nat
  name : String
  organization : String
  stakeholderType : StakeholderType
  location : String
  contactInfo : String
  isApproved : Bool
  isActive : Bool
  registeredAt : Nat
  approvedAt : Nat
  approvedBy : Nat
  ownedProjects : List Nat
  reputationScore : Nat
  profileHash : String
deriving DecidableEq, Repr

structure MRVData where
  id : Nat
  projectId : Nat
  collector : Nat
  timestamp : Nat
  dataHash : String
  coordinates : String
  methodologyUsed : String
  carbonSequestration : Nat
  biomassGrowth : Nat
  areaMonitored : Nat
  status : MRVStatus
  verifier : Nat
  verifiedAt : Nat
  verificationNotes : String
  attachmentHashes : List String
  isValid : Bool
deriving DecidableEq, Repr

structure ProjectStatistics where
  totalMRVSubmissions : Nat
  verifiedMRVSubmissions : Nat
  lastMRVSubmission : Nat
  averageCarbonSequestration : Nat
  totalBiomassGrowth : Nat
  complianceScore : Nat
deriving DecidableEq, Repr

/-- The zero struct a Solidity mapping returns for an absent project. -/
def zeroProject : Project :=
  { id := 0, name := "", description := "", location := "", coordinates := ""
    area := 0, ecosystemType := .Mangrove, owner := 0, status := .Pending
    createdAt := 0, lastUpdated := 0, verifiedAt := 0, verifiedBy := 0
    documentHashes := [], estimatedCarbonCredits := 0, actualCarbonCredits := 0
    totalAreaRestored := 0, isActive := false }

/-- The zero struct a Solidity mapping returns for an absent stakeholder. -/
def zeroStakeholder : Stakeholder :=
  { id := 0, stakeholderAddress := 0, name := "", organization := ""
    stakeholderType := .NGO, location := "", contactInfo := ""
    isApproved := false, isActive := false, registeredAt := 0, approvedAt := 0
    approvedBy := 0, ownedProjects := [], reputationScore := 0, profileHash := "" }

/-- The zero struct a Solidity mapping returns for an absent MRV record. -/
def zeroMRVData : MRVData :=
  { id := 0, projectId := 0, collector := 0, timestamp := 0, dataHash := ""
    coordinates := "", methodologyUsed := "", carbonSequestration := 0
    biomassGrowth := 0, areaMonitored := 0, status := .Submitted, verifier := 0
    verifiedAt := 0, verificationNotes := "", attachmentHashes := [], isValid := false }

def zeroStats : ProjectStatistics :=
  { totalMRVSubmissions := 0, verifiedMRVSubmissions := 0, lastMRVSubmission := 0
    averageCarbonSequestration := 0, totalBiomassGrowth := 0, complianceScore := 0 }

/-- Contract storage of BlueCarbonRegistry (the full variant). -/
structure Registry where
  projects : Nat → Project
  stakeholders : Nat → Stakeholder
  stakeholderByAddress : Nat → Nat
  mrvData : Nat → MRVData
  projectMRVData : Nat → List Nat
  projectStats : Nat → ProjectStatistics
  stakeholderProjects : Nat → List Nat
  projectIdCounter : Nat
  mrvDataIdCounter : Nat
  stakeholderIdCounter : Nat
  totalProjects : Nat
  totalVerifiedProjects : Nat
  totalStakeholders : Nat
  totalApprovedStakeholders : Nat
  totalCarbonSequestered : Nat
  totalAreaUnderRestoration : Nat

/-- The state right after the constructor ran. -/
def init : Registry :=
  { projects := fun _ => zeroProject
    stakeholders := fun _ => zeroStakeholder
    stakeholderByAddress := fun _ => 0
    mrvData := fun _ => zeroMRVData
    projectMRVData := fun _ => []
    projectStats := fun _ => zeroStats
    stakeholderProjects := fun _ => []
    projectIdCounter := 0, mrvDataIdCounter := 0, stakeholderIdCounter := 0
    totalProjects := 0, totalVerifiedProjects := 0, totalStakeholders := 0
    totalApprovedStakeholders := 0, totalCarbonSequestered := 0
    totalAreaUnderRestoration := 0 }

/-- Revert reasons of the contract, one constructor per require string. -/
inductive Err
  | nameEmpty
  | organizationEmpty
  | stakeholderAlreadyRegistered
  | stakeholderDoesNotExist
  | stakeholderAlreadyApproved
  | projectNameEmpty
  | projectLocationEmpty
  | projectAreaZero
  | stakeholderNotRegistered
  | stakeholderNotApproved
  | projectDoesNotExist
  | projectNotActive
  | statusAlreadySet
  | projectMustBeActiveOrVerified
  | dataHashEmpty
  | carbonSequestrationZero
  | mrvDataDoesNotExist
  | dataNotInVerifiableStatus
  | cannotSetBackToSubmitted
deriving DecidableEq, Repr

/-- registerStakeholder, lines 271-311 of the contract. -/
def registerStakeholder (s : Registry) (sender now : Nat)
    (name organization : String) (stype : StakeholderType)
    (location contactInfo profileHash : String) : Except Err Registry :=
  if name.length = 0 then .error .nameEmpty
  else if organization.length = 0 then .error .organizationEmpty
  else if s.stakeholderByAddress sender ≠ 0 then .error .stakeholderAlreadyRegistered
  else
    let stakeholderId := s.stakeholderIdCounter + 1
    let st : Stakeholder :=
      { id := stakeholderId, stakeholderAddress := sender, name := name
        organization := organization, stakeholderType := stype
        location := location, contactInfo := contactInfo
        isApproved := false, isActive := true, registeredAt := now
        approvedAt := 0, approvedBy := 0, ownedProjects := []
        reputationScore := 500, profileHash := profileHash }
    .ok { s with
          stakeholderIdCounter := stakeholderId
          stakeholders := upd s.stakeholders stakeholderId st
          stakeholderByAddress := upd s.stakeholderByAddress sender stakeholderId
          totalStakeholders := s.totalStakeholders + 1 }

/-- approveStakeholder, lines 313-338 of the contract. -/
def approveStakeholder (s : Registry) (sender now stakeholderId : Nat) :
    Except Err Registry :=
  if (s.stakeholders stakeholderId).id = 0 then .error .stakeholderDoesNotExist
  else if (s.stakeholders stakeholderId).isApproved then .error .stakeholderAlreadyApproved
  else
    let st := s.stakeholders stakeholderId
    let st2 := { st with isApproved := true, approvedAt := now, approvedBy := sender }
    .ok { s with
          stakeholders := upd s.stakeholders stakeholderId st2
          totalApprovedStakeholders := s.totalApprovedStakeholders + 1 }

/-- registerProject, lines 341-402 of the contract. -/
def registerProject (s : Registry) (sender now : Nat)
    (name description location coordinates : String) (area : Nat)
    (etype : EcosystemType) (documentHashes : List String)
    (estimatedCarbonCredits : Nat) : Except Err Registry :=
  if name.length = 0 then .error .projectNameEmpty
  else if location.length = 0 then .error .projectLocationEmpty
  else if area = 0 then .error .projectAreaZero
  else if s.stakeholderByAddress sender = 0 then .error .stakeholderNotRegistered
  else if ¬ (s.stakeholders (s.stakeholderByAddress sender)).isApproved then
    .error .stakeholderNotApproved
  else
      let stakeholderId := s.stakeholderByAddress sender
      let projectId := s.projectIdCounter + 1
      let p : Project :=
        { id := projectId, name := name, description := description
          location := location, coordinates := coordinates, area := area
          ecosystemType := etype, owner := sender, status := .Pending
          createdAt := now, lastUpdated := now, verifiedAt := 0, verifiedBy := 0
          documentHashes := documentHashes
          estimatedCarbonCredits := estimatedCarbonCredits
          actualCarbonCredits := 0, totalAreaRestored := 0, isActive := true }
      let st := s.stakeholders stakeholderId
      let st2 := { st with ownedProjects := st.ownedProjects ++ [projectId] }
      let stats : ProjectStatistics :=
        { totalMRVSubmissions := 0, verifiedMRVSubmissions := 0
          lastMRVSubmission := 0, averageCarbonSequestration := 0
          totalBiomassGrowth := 0, complianceScore := 100 }
      .ok { s with
            projectIdCounter := projectId
            projects := upd s.projects projectId p
            stakeholders := upd s.stakeholders stakeholderId st2
            stakeholderProjects :=
              upd s.stakeholderProjects sender (s.stakeholderProjects sender ++ [projectId])
            projectStats := upd s.projectStats projectId stats
            totalProjects := s.totalProjects + 1
            totalAreaUnderRestoration := s.totalAreaUnderRestoration + area }

/-- updateProjectStatus, lines 404-432 of the contract.  The decrement on
leaving Verified is Nat subtraction; on every state in which the counter
invariant of the contract holds the counter is positive there, so this
agrees with Solidity 0.8 checked subtraction on all non-reverting runs. -/
def updateProjectStatus (s : Registry) (sender now projectId : Nat)
    (newStatus : ProjectStatus) (_reason : String) : Except Err Registry :=
  if (s.projects projectId).id = 0 then .error .projectDoesNotExist
  else if ¬ (s.projects projectId).isActive then .error .projectNotActive
  else if (s.projects projectId).status = newStatus then .error .statusAlreadySet
  else if (s.projects projectId).status ≠ ProjectStatus.Verified ∧
          newStatus = ProjectStatus.Verified then
    let p := s.projects projectId
    let p2 := { p with status := newStatus, lastUpdated := now
                       verifiedAt := now, verifiedBy := sender }
    .ok { s with
          projects := upd s.projects projectId p2
          totalVerifiedProjects := s.totalVerifiedProjects + 1 }
  else if (s.projects projectId).status = ProjectStatus.Verified ∧
          newStatus ≠ ProjectStatus.Verified then
    let p := s.projects projectId
    let p1 := { p with status := newStatus, lastUpdated := now }
    .ok { s with
          projects := upd s.projects projectId p1
          totalVerifiedProjects := s.totalVerifiedProjects - 1 }
  else
    let p := s.projects projectId
    let p1 := { p with status := newStatus, lastUpdated := now }
    .ok { s with projects := upd s.projects projectId p1 }

/-- submitMRVData, lines 435-488 of the contract. -/
def submitMRVData (s : Registry) (sender now projectId : Nat)
    (dataHash coordinates methodologyUsed : String)
    (carbonSequestration biomassGrowth areaMonitored : Nat)
    (attachmentHashes : List String) : Except Err Registry :=
  if (s.projects projectId).id = 0 then .error .projectDoesNotExist
  else if ¬ (s.projects projectId).isActive then .error .projectNotActive
  else if ¬ ((s.projects projectId).status = ProjectStatus.Active ∨
             (s.projects projectId).status = ProjectStatus.Verified) then
    .error .projectMustBeActiveOrVerified
  else if dataHash.length = 0 then .error .dataHashEmpty
  else if carbonSequestration = 0 then .error .carbonSequestrationZero
  else
    let dataId := s.mrvDataIdCounter + 1
    let d : MRVData :=
      { id := dataId, projectId := projectId, collector := sender
        timestamp := now, dataHash := dataHash, coordinates := coordinates
        methodologyUsed := methodologyUsed
        carbonSequestration := carbonSequestration
        biomassGrowth := biomassGrowth, areaMonitored := areaMonitored
        status := .Submitted, verifier := 0, verifiedAt := 0
        verificationNotes := "", attachmentHashes := attachmentHashes
        isValid := false }
    let stats := s.projectStats projectId
    let stats2 := { stats with
                    totalMRVSubmissions := stats.totalMRVSubmissions + 1
                    lastMRVSubmission := now }
    let p := s.projects projectId
    .ok { s with
          mrvDataIdCounter := dataId
          mrvData := upd s.mrvData dataId d
          projectMRVData :=
            upd s.projectMRVData projectId (s.projectMRVData projectId ++ [dataId])
          projectStats := upd s.projectStats projectId stats2
          projects := upd s.projects projectId { p with lastUpdated := now } }

/-- The private helper _updateStakeholderReputation, lines 561-581, split
into the pure score step and the storage write. -/
def repStep (score : Nat) (positive : Bool) : Nat :=
  if positive then
    if score + 10 > 1000 then 1000 else score + 10
  else
    if score < 20 then 0 else score - 20

def updateStakeholderReputation (s : Registry) (stakeholderAddress : Nat)
    (positive : Bool) : Registry :=
  if s.stakeholderByAddress stakeholderAddress = 0 then s
  else
    let stakeholderId := s.stakeholderByAddress stakeholderAddress
    let st := s.stakeholders stakeholderId
    let st2 := { st with reputationScore := repStep st.reputationScore positive }
    { s with stakeholders := upd s.stakeholders stakeholderId st2 }

/-- verifyMRVData, lines 490-558 of the contract.  The updates happen in
source order: the record first, then the statistics, credits, restored
area, the average over the (already updated) record store, the compliance
score, and finally the owner reputation. -/
def verifyMRVData (s : Registry) (sender now dataId : Nat)
    (verificationStatus : MRVStatus) (verificationNotes : String) :
    Except Err Registry :=
  if (s.mrvData dataId).id = 0 then .error .mrvDataDoesNotExist
  else if ¬ ((s.mrvData dataId).status = MRVStatus.Submitted ∨
             (s.mrvData dataId).status = MRVStatus.UnderReview) then
    .error .dataNotInVerifiableStatus
  else if verificationStatus = MRVStatus.Submitted then .error .cannotSetBackToSubmitted
  else if verificationStatus = MRVStatus.Verified then
    let d0 := s.mrvData dataId
    let d := { d0 with
               status := verificationStatus, verifier := sender, verifiedAt := now
               verificationNotes := verificationNotes
               isValid := verificationStatus == MRVStatus.Verified }
    let s1 := { s with mrvData := upd s.mrvData dataId d }
    let projectId := d.projectId
    let stats := s1.projectStats projectId
    let stats1 := { stats with verifiedMRVSubmissions := stats.verifiedMRVSubmissions + 1 }
    let p := s1.projects projectId
    let p1 := { p with
                actualCarbonCredits := p.actualCarbonCredits + d.carbonSequestration
                totalAreaRestored := p.totalAreaRestored + d.areaMonitored }
    let s2 := { s1 with
                projects := upd s1.projects projectId p1
                projectStats := upd s1.projectStats projectId stats1
                totalCarbonSequestered := s1.totalCarbonSequestered + d.carbonSequestration }
    let dataIds := s2.projectMRVData projectId
    let acc := dataIds.foldl
      (fun (ac : Nat × Nat) i =>
        if (s2.mrvData i).isValid then
          (ac.1 + (s2.mrvData i).carbonSequestration, ac.2 + 1)
        else ac)
      (0, 0)
    let stats2 := s2.projectStats projectId
    let stats3 :=
      if stats2.verifiedMRVSubmissions > 0 ∧ acc.2 > 0 then
        { stats2 with averageCarbonSequestration := acc.1 / acc.2 }
      else stats2
    let stats4 :=
      if stats3.totalMRVSubmissions > 0 then
        { stats3 with
          complianceScore :=
            stats3.verifiedMRVSubmissions * 100 / stats3.totalMRVSubmissions }
      else stats3
    let s3 := { s2 with projectStats := upd s2.projectStats projectId stats4 }
    -- the source reads projects[projectId].owner from storage after the
    -- credit update wrote p1 there, and p1 carries the owner unchanged
    .ok (updateStakeholderReputation s3 p1.owner true)
  else if verificationStatus = MRVStatus.Rejected then
    let d0 := s.mrvData dataId
    let d := { d0 with
               status := verificationStatus, verifier := sender, verifiedAt := now
               verificationNotes := verificationNotes
               isValid := verificationStatus == MRVStatus.Verified }
    let s1 := { s with mrvData := upd s.mrvData dataId d }
    .ok (updateStakeholderReputation s1 (s1.projects d.projectId).owner false)
  else
    let d0 := s.mrvData dataId
    let d := { d0 with
               status := verificationStatus, verifier := sender, verifiedAt := now
               verificationNotes := verificationNotes
               isValid := verificationStatus == MRVStatus.Verified }
    .ok { s with mrvData := upd s.mrvData dataId d }

/-- deactivateProject, lines 718-722 of the contract. -/
def deactivateProject (s : Registry) (now projectId : Nat) : Except Err Registry :=
  if (s.projects projectId).id = 0 then .error .projectDoesNotExist
  else
    let p := s.projects projectId
    .ok { s with projects := upd s.projects projectId { p with isActive := false, lastUpdated := now } }

/-- deactivateStakeholder, lines 724-732 of the contract (the role
revocations only affect the access-control layer). -/
def deactivateStakeholder (s : Registry) (stakeholderId : Nat) : Except Err Registry :=
  if (s.stakeholders stakeholderId).id = 0 then .error .stakeholderDoesNotExist
  else
    let st := s.stakeholders stakeholderId
    .ok { s with stakeholders := upd s.stakeholders stakeholderId { st with isActive := false } }

/-- One external state-changing call of the contract. -/
inductive Op
  | registerStakeholder (sender now : Nat) (name organization : String)
      (stype : StakeholderType) (location contactInfo profileHash : String)
  | approveStakeholder (sender now stakeholderId : Nat)
  | registerProject (sender now : Nat) (name description location coordinates : String)
      (area : Nat) (etype : EcosystemType) (documentHashes : List String)
      (estimatedCarbonCredits : Nat)
  | updateProjectStatus (sender now projectId : Nat) (newStatus : ProjectStatus)
      (reason : String)
  | submitMRVData (sender now projectId : Nat)
      (dataHash coordinates methodologyUsed : String)
      (carbonSequestration biomassGrowth areaMonitored : Nat)
      (attachmentHashes : List String)
  | verifyMRVData (sender now dataId : Nat) (verificationStatus : MRVStatus)
      (verificationNotes : String)
  | deactivateProject (now projectId : Nat)
  | deactivateStakeholder (stakeholderId : Nat)

def runOp (s : Registry) : Op → Except Err Registry
  | .registerStakeholder sender now name organization stype location contactInfo profileHash =>
      registerStakeholder s sender now name organization stype location contactInfo profileHash
  | .approveStakeholder sender now stakeholderId =>
      approveStakeholder s sender now stakeholderId
  | .registerProject sender now name description location coordinates area etype docs est =>
      registerProject s sender now name description location coordinates area etype docs est
  | .updateProjectStatus sender now projectId newStatus reason =>
      updateProjectStatus s sender now projectId newStatus reason
  | .submitMRVData sender now projectId dataHash coordinates methodology c b a hashes =>
      submitMRVData s sender now projectId dataHash coordinates methodology c b a hashes
  | .verifyMRVData sender now dataId vstatus notes =>
      verifyMRVData s sender now dataId vstatus notes
  | .deactivateProject now projectId =>
      deactivateProject s now projectId
  | .deactivateStakeholder stakeholderId =>
      deactivateStakeholder s stakeholderId

/-- A transaction: a revert leaves the storage untouched. -/
def applyOp (s : Registry) (op : Op) : Registry :=
  match runOp s op with
  | .ok s2 => s2
  | .error _ => s

/-- States reachable from the deployed contract by some call sequence. -/
def Reachable (s : Registry) : Prop :=
  ∃ ops : List Op, s = ops.foldl applyOp init

@[simp] theorem upd_same {α : Type} (f : Nat → α) (k : Nat) (v : α) :
    upd f k v k = v := by
  simp [upd]

theorem upd_ne {α : Type} (f : Nat → α) (k : Nat) (v : α) {x : Nat}
    (h : x ≠ k) : upd f k v x = f x := by
  simp [upd, h]

theorem applyOp_eq (s : Registry) (op : Op) :
    applyOp s op = s ∨ runOp s op = Except.ok (applyOp s op) := by
  unfold applyOp
  cases runOp s op <;> simp

theorem registerStakeholder_ok {s s2 : Registry} {sender now : Nat}
    {nm org : String} {ty : StakeholderType} {loc ci ph : String}
    (h : registerStakeholder s sender now nm org ty loc ci ph = Except.ok s2) :
    s2.projects = s.projects ∧
    s2.mrvData = s.mrvData ∧
    s2.projectIdCounter = s.projectIdCounter ∧
    s2.mrvDataIdCounter = s.mrvDataIdCounter ∧
    s2.stakeholderIdCounter = s.stakeholderIdCounter + 1 ∧
    s2.stakeholderByAddress =
      upd s.stakeholderByAddress sender (s.stakeholderIdCounter + 1) ∧
    (∀ i, i ≠ s.stakeholderIdCounter + 1 → s2.stakeholders i = s.stakeholders i) ∧
    (s2.stakeholders (s.stakeholderIdCounter + 1)).id = s.stakeholderIdCounter + 1 ∧
    (s2.stakeholders (s.stakeholderIdCounter + 1)).isApproved = false ∧
    (s2.stakeholders (s.stakeholderIdCounter + 1)).reputationScore = 500 := by
  unfold registerStakeholder at h
  split_ifs at h
  injection h with h
  subst h
  refine ⟨rfl, rfl, rfl, rfl, rfl, rfl, ?_, by simp, by simp, by simp⟩
  intro i hi
  simp [upd_ne _ _ _ hi]

theorem approveStakeholder_ok {s s2 : Registry} {sender now tid : Nat}
    (h : approveStakeholder s sender now tid = Except.ok s2) :
    s2.projects = s.projects ∧
    s2.mrvData = s.mrvData ∧
    s2.projectIdCounter = s.projectIdCounter ∧
    s2.mrvDataIdCounter = s.mrvDataIdCounter ∧
    s2.stakeholderIdCounter = s.stakeholderIdCounter ∧
    s2.stakeholderByAddress = s.stakeholderByAddress ∧
    (∀ i, i ≠ tid → s2.stakeholders i = s.stakeholders i) ∧
    s2.stakeholders tid =
      { s.stakeholders tid with isApproved := true, approvedAt := now, approvedBy := sender } ∧
    (s.stakeholders tid).id ≠ 0 := by
  unfold approveStakeholder at h
  split_ifs at h with h1 h2
  injection h with h
  subst h
  refine ⟨rfl, rfl, rfl, rfl, rfl, rfl, ?_, by simp, h1⟩
  intro i hi
  simp [upd_ne _ _ _ hi]

theorem registerProject_ok {s s2 : Registry} {sender now : Nat}
    {nm ds loc co : String} {area : Nat} {ty : EcosystemType}
    {docs : List String} {est : Nat}
    (h : registerProject s sender now nm ds loc co area ty docs est = Except.ok s2) :
    s2.mrvData = s.mrvData ∧
    s2.projectIdCounter = s.projectIdCounter + 1 ∧
    s2.mrvDataIdCounter = s.mrvDataIdCounter ∧
    s2.stakeholderIdCounter = s.stakeholderIdCounter ∧
    s2.stakeholderByAddress = s.stakeholderByAddress ∧
    (∀ i, i ≠ s.projectIdCounter + 1 → s2.projects i = s.projects i) ∧
    (s2.projects (s.projectIdCounter + 1)).id = s.projectIdCounter + 1 ∧
    (s2.projects (s.projectIdCounter + 1)).actualCarbonCredits = 0 ∧
    (∀ i, i ≠ s.stakeholderByAddress sender → s2.stakeholders i = s.stakeholders i) ∧
    s2.stakeholders (s.stakeholderByAddress sender) =
      { s.stakeholders (s.stakeholderByAddress sender) with
          ownedProjects :=
            (s.stakeholders (s.stakeholderByAddress sender)).ownedProjects ++
              [s.projectIdCounter + 1] } ∧
    s.stakeholderByAddress sender ≠ 0 ∧
    (s.stakeholders (s.stakeholderByAddress sender)).isApproved := by
  unfold registerProject at h
  split_ifs at h with h1 h2 h3 h4 h5
  injection h with h
  subst h
  refine ⟨rfl, rfl, rfl, rfl, rfl, ?_, by simp, by simp, ?_, by simp, h4, ?_⟩
  · intro i hi
    simp [upd_ne _ _ _ hi]
  · intro i hi
    simp [upd_ne _ _ _ hi]
  · exact h5

theorem updateProjectStatus_ok {s s2 : Registry} {sender now pid : Nat}
    {ns : ProjectStatus} {reason : String}
    (h : updateProjectStatus s sender now pid ns reason = Except.ok s2) :
    s2.mrvData = s.mrvData ∧
    s2.projectIdCounter = s.projectIdCounter ∧
    s2.mrvDataIdCounter = s.mrvDataIdCounter ∧
    s2.stakeholderIdCounter = s.stakeholderIdCounter ∧
    s2.stakeholderByAddress = s.stakeholderByAddress ∧
    s2.stakeholders = s.stakeholders ∧
    (∀ i, i ≠ pid → s2.projects i = s.projects i) ∧
    (s2.projects pid).id = (s.projects pid).id ∧
    (s2.projects pid).actualCarbonCredits = (s.projects pid).actualCarbonCredits ∧
    (s.projects pid).id ≠ 0 := by
  unfold updateProjectStatus at h
  split_ifs at h with h1 h2 h3 h4 h5 <;>
    (injection h with h
     subst h
     refine ⟨rfl, rfl, rfl, rfl, rfl, rfl, ?_, by simp, by simp, h1⟩
     intro i hi
     simp [upd_ne _ _ _ hi])

theorem submitMRVData_ok {s s2 : Registry} {sender now pid : Nat}
    {dh co mu : String} {c b a : Nat} {hs : List String}
    (h : submitMRVData s sender now pid dh co mu c b a hs = Except.ok s2) :
    s2.projectIdCounter = s.projectIdCounter ∧
    s2.mrvDataIdCounter = s.mrvDataIdCounter + 1 ∧
    s2.stakeholderIdCounter = s.stakeholderIdCounter ∧
    s2.stakeholderByAddress = s.stakeholderByAddress ∧
    s2.stakeholders = s.stakeholders ∧
    (∀ i, i ≠ pid → s2.projects i = s.projects i) ∧
    s2.projects pid = { s.projects pid with lastUpdated := now } ∧
    (∀ i, i ≠ s.mrvDataIdCounter + 1 → s2.mrvData i = s.mrvData i) ∧
    (s2.mrvData (s.mrvDataIdCounter + 1)).id = s.mrvDataIdCounter + 1 ∧
    (s2.mrvData (s.mrvDataIdCounter + 1)).projectId = pid ∧
    (s.projects pid).id ≠ 0 := by
  unfold submitMRVData at h
  split_ifs at h with h1 h2 h3 h4 h5
  injection h with h
  subst h
  refine ⟨rfl, rfl, rfl, rfl, rfl, ?_, by simp, ?_, by simp, by simp, h1⟩
  · intro i hi
    simp [upd_ne _ _ _ hi]
  · intro i hi
    simp [upd_ne _ _ _ hi]

theorem updateRep_projects (s : Registry) (a : Nat) (pos : Bool) :
    (updateStakeholderReputation s a pos).projects = s.projects := by
  unfold updateStakeholderReputation
  split_ifs <;> rfl

theorem updateRep_mrvData (s : Registry) (a : Nat) (pos : Bool) :
    (updateStakeholderReputation s a pos).mrvData = s.mrvData := by
  unfold updateStakeholderReputation
  split_ifs <;> rfl

theorem updateRep_stakeholderByAddress (s : Registry) (a : Nat) (pos : Bool) :
    (updateStakeholderReputation s a pos).stakeholderByAddress = s.stakeholderByAddress := by
  unfold updateStakeholderReputation
  split_ifs <;> rfl

theorem updateRep_projectIdCounter (s : Registry) (a : Nat) (pos : Bool) :
    (updateStakeholderReputation s a pos).projectIdCounter = s.projectIdCounter := by
  unfold updateStakeholderReputation
  split_ifs <;> rfl

theorem updateRep_mrvDataIdCounter (s : Registry) (a : Nat) (pos : Bool) :
    (updateStakeholderReputation s a pos).mrvDataIdCounter = s.mrvDataIdCounter := by
  unfold updateStakeholderReputation
  split_ifs <;> rfl

theorem updateRep_stakeholderIdCounter (s : Registry) (a : Nat) (pos : Bool) :
    (updateStakeholderReputation s a pos).stakeholderIdCounter = s.stakeholderIdCounter := by
  unfold updateStakeholderReputation
  split_ifs <;> rfl

theorem updateRep_stakeholders_pointwise {t : Registry} {sts : Nat → Stakeholder}
    {byA : Nat → Nat} (hsts : t.stakeholders = sts)
    (hby : t.stakeholderByAddress = byA) (a : Nat) (pos : Bool) (i : Nat) :
    (updateStakeholderReputation t a pos).stakeholders i = sts i ∨
    (i ≠ 0 ∧ byA a = i ∧
      (updateStakeholderReputation t a pos).stakeholders i =
        { sts i with reputationScore := repStep (sts i).reputationScore pos }) := by
  subst hsts
  subst hby
  unfold updateStakeholderReputation
  split_ifs with h0
  · exact Or.inl rfl
  · by_cases hi : i = t.stakeholderByAddress a
    · subst hi
      exact Or.inr ⟨h0, rfl, by simp⟩
    · exact Or.inl (by simp [upd_ne _ _ _ hi])

theorem updateRep_stakeholders_hit {t : Registry} {sts : Nat → Stakeholder}
    {byA : Nat → Nat} (hsts : t.stakeholders = sts)
    (hby : t.stakeholderByAddress = byA) (a : Nat) (pos : Bool)
    (ha : byA a ≠ 0) :
    (updateStakeholderReputation t a pos).stakeholders (byA a) =
      { sts (byA a) with
          reputationScore := repStep (sts (byA a)).reputationScore pos } := by
  subst hsts
  subst hby
  unfold updateStakeholderReputation
  split_ifs with h0
  · exact absurd h0 ha
  · simp [upd]

theorem verifyMRVData_verified_ok {s s2 : Registry} {sender now dataId : Nat}
    {vs : MRVStatus} {notes : String} (hvs : vs = MRVStatus.Verified)
    (h : verifyMRVData s sender now dataId vs notes = Except.ok s2) :
    (s.mrvData dataId).id ≠ 0 ∧
    ((s.mrvData dataId).status = MRVStatus.Submitted ∨
      (s.mrvData dataId).status = MRVStatus.UnderReview) ∧
    s2.projectIdCounter = s.projectIdCounter ∧
    s2.mrvDataIdCounter = s.mrvDataIdCounter ∧
    s2.stakeholderIdCounter = s.stakeholderIdCounter ∧
    s2.stakeholderByAddress = s.stakeholderByAddress ∧
    (∀ i, i ≠ (s.mrvData dataId).projectId → s2.projects i = s.projects i) ∧
    (s2.projects (s.mrvData dataId).projectId).id =
      (s.projects (s.mrvData dataId).projectId).id ∧
    (s2.projects (s.mrvData dataId).projectId).owner =
      (s.projects (s.mrvData dataId).projectId).owner ∧
    (s2.projects (s.mrvData dataId).projectId).actualCarbonCredits =
      (s.projects (s.mrvData dataId).projectId).actualCarbonCredits +
        (s.mrvData dataId).carbonSequestration ∧
    (∀ i, i ≠ dataId → s2.mrvData i = s.mrvData i) ∧
    (s2.mrvData dataId).id = (s.mrvData dataId).id ∧
    (s2.mrvData dataId).projectId = (s.mrvData dataId).projectId ∧
    (∀ i, s2.stakeholders i = s.stakeholders i ∨
      (i ≠ 0 ∧
        s.stakeholderByAddress ((s.projects (s.mrvData dataId).projectId).owner) = i ∧
        s2.stakeholders i =
          { s.stakeholders i with
              reputationScore := repStep (s.stakeholders i).reputationScore true })) ∧
    (s.stakeholderByAddress ((s.projects (s.mrvData dataId).projectId).owner) ≠ 0 →
      s2.stakeholders
          (s.stakeholderByAddress ((s.projects (s.mrvData dataId).projectId).owner)) =
        { s.stakeholders
            (s.stakeholderByAddress ((s.projects (s.mrvData dataId).projectId).owner)) with
          reputationScore :=
            repStep
              (s.stakeholders
                (s.stakeholderByAddress
                  ((s.projects (s.mrvData dataId).projectId).owner))).reputationScore
              true }) := by
  unfold verifyMRVData at h
  split_ifs at h with h1 h2 h3 h4 h5 h6
  all_goals try exact absurd hvs h4
  all_goals
    injection h with h
    subst h
    exact ⟨h1, h2, updateRep_projectIdCounter .., updateRep_mrvDataIdCounter ..,
      updateRep_stakeholderIdCounter .., updateRep_stakeholderByAddress ..,
      fun i hi => by rw [updateRep_projects]; exact upd_ne _ _ _ hi,
      by rw [updateRep_projects]; simp,
      by rw [updateRep_projects]; simp,
      by rw [updateRep_projects]; simp,
      fun i hi => by rw [updateRep_mrvData]; exact upd_ne _ _ _ hi,
      by rw [updateRep_mrvData]; simp,
      by rw [updateRep_mrvData]; simp,
      fun i => updateRep_stakeholders_pointwise rfl rfl _ true i,
      fun ha => updateRep_stakeholders_hit rfl rfl _ true ha⟩

theorem verifyMRVData_rejected_ok {s s2 : Registry} {sender now dataId : Nat}
    {vs : MRVStatus} {notes : String} (hvs : vs = MRVStatus.Rejected)
    (h : verifyMRVData s sender now dataId vs notes = Except.ok s2) :
    s2.projects = s.projects ∧
    s2.projectIdCounter = s.projectIdCounter ∧
    s2.mrvDataIdCounter = s.mrvDataIdCounter ∧
    s2.stakeholderIdCounter = s.stakeholderIdCounter ∧
    s2.stakeholderByAddress = s.stakeholderByAddress ∧
    (∀ i, i ≠ dataId → s2.mrvData i = s.mrvData i) ∧
    (s2.mrvData dataId).id = (s.mrvData dataId).id ∧
    (s2.mrvData dataId).projectId = (s.mrvData dataId).projectId ∧
    (∀ i, s2.stakeholders i = s.stakeholders i ∨
      (i ≠ 0 ∧
        s.stakeholderByAddress ((s.projects (s.mrvData dataId).projectId).owner) = i ∧
        s2.stakeholders i =
          { s.stakeholders i with
              reputationScore := repStep (s.stakeholders i).reputationScore false })) ∧
    (s.stakeholderByAddress ((s.projects (s.mrvData dataId).projectId).owner) ≠ 0 →
      s2.stakeholders
          (s.stakeholderByAddress ((s.projects (s.mrvData dataId).projectId).owner)) =
        { s.stakeholders
            (s.stakeholderByAddress ((s.projects (s.mrvData dataId).projectId).owner)) with
          reputationScore :=
            repStep
              (s.stakeholders
                (s.stakeholderByAddress
                  ((s.projects (s.mrvData dataId).projectId).owner))).reputationScore
              false }) := by
  unfold verifyMRVData at h
  split_ifs at h with h1 h2 h3 h4 h5 h6 h7
  all_goals try exact MRVStatus.noConfusion (h4.symm.trans hvs)
  all_goals try exact absurd hvs h5
  all_goals
    injection h with h
    subst h
    exact ⟨updateRep_projects .., updateRep_projectIdCounter .., updateRep_mrvDataIdCounter ..,
      updateRep_stakeholderIdCounter .., updateRep_stakeholderByAddress ..,
      fun i hi => by rw [updateRep_mrvData]; exact upd_ne _ _ _ hi,
      by rw [updateRep_mrvData]; simp,
      by rw [updateRep_mrvData]; simp,
      fun i => updateRep_stakeholders_pointwise rfl rfl _ false i,
      fun ha => updateRep_stakeholders_hit rfl rfl _ false ha⟩

theorem verifyMRVData_other_ok {s s2 : Registry} {sender now dataId : Nat}
    {vs : MRVStatus} {notes : String}
    (hvs1 : vs ≠ MRVStatus.Verified) (hvs2 : vs ≠ MRVStatus.Rejected)
    (h : verifyMRVData s sender now dataId vs notes = Except.ok s2) :
    s2.projects = s.projects ∧
    s2.stakeholders = s.stakeholders ∧
    s2.projectIdCounter = s.projectIdCounter ∧
    s2.mrvDataIdCounter = s.mrvDataIdCounter ∧
    s2.stakeholderIdCounter = s.stakeholderIdCounter ∧
    s2.stakeholderByAddress = s.stakeholderByAddress ∧
    (∀ i, i ≠ dataId → s2.mrvData i = s.mrvData i) ∧
    (s2.mrvData dataId).id = (s.mrvData dataId).id ∧
    (s2.mrvData dataId).projectId = (s.mrvData dataId).projectId := by
  unfold verifyMRVData at h
  split_ifs at h with h1 h2 h3 h4 h5 h6 h7
  all_goals try exact absurd h4 hvs1
  all_goals try exact absurd h5 hvs2
  all_goals
    injection h with h
    subst h
    exact ⟨rfl, rfl, rfl, rfl, rfl, rfl,
      fun i hi => by simp [upd_ne _ _ _ hi], by simp, by simp⟩

theorem deactivateProject_ok {s s2 : Registry} {now pid : Nat}
    (h : deactivateProject s now pid = Except.ok s2) :
    s2.mrvData = s.mrvData ∧
    s2.stakeholders = s.stakeholders ∧
    s2.projectIdCounter = s.projectIdCounter ∧
    s2.mrvDataIdCounter = s.mrvDataIdCounter ∧
    s2.stakeholderIdCounter = s.stakeholderIdCounter ∧
    s2.stakeholderByAddress = s.stakeholderByAddress ∧
    (∀ i, i ≠ pid → s2.projects i = s.projects i) ∧
    s2.projects pid = { s.projects pid with isActive := false, lastUpdated := now } ∧
    (s.projects pid).id ≠ 0 := by
  unfold deactivateProject at h
  split_ifs at h with h1
  injection h with h
  subst h
  refine ⟨rfl, rfl, rfl, rfl, rfl, rfl, ?_, by simp, h1⟩
  intro i hi
  simp [upd_ne _ _ _ hi]

/-- Well-formedness of a registry state: mapping slots above the id
counters are still zero structs, every stored MRV record points at a
stored project, and the address index points at stored stakeholders.
These all hold in the deployed state and are preserved by every call. -/
structure WF (s : Registry) : Prop where
  freshProjects : ∀ i, s.projectIdCounter < i → s.projects i = zeroProject
  mrvProject : ∀ i, (s.mrvData i).id ≠ 0 → (s.projects ((s.mrvData i).projectId)).id ≠ 0
  freshStakeholders : ∀ i, s.stakeholderIdCounter < i → s.stakeholders i = zeroStakeholder
  addrStakeholder : ∀ a, s.stakeholderByAddress a ≠ 0 →
    (s.stakeholders (s.stakeholderByAddress a)).id ≠ 0

theorem WF.projLe {s : Registry} (hWF : WF s) {i : Nat}
    (hid : (s.projects i).id ≠ 0) : i ≤ s.projectIdCounter := by
  by_contra hgt
  push_neg at hgt
  rw [hWF.freshProjects i hgt] at hid
  exact hid rfl

theorem WF.stakLe {s : Registry} (hWF : WF s) {i : Nat}
    (hid : (s.stakeholders i).id ≠ 0) : i ≤ s.stakeholderIdCounter := by
  by_contra hgt
  push_neg at hgt
  rw [hWF.freshStakeholders i hgt] at hid
  exact hid rfl

theorem deactivateStakeholder_ok {s s2 : Registry} {tid : Nat}
    (h : deactivateStakeholder s tid = Except.ok s2) :
    s2.projects = s.projects ∧
    s2.mrvData = s.mrvData ∧
    s2.projectIdCounter = s.projectIdCounter ∧
    s2.mrvDataIdCounter = s.mrvDataIdCounter ∧
    s2.stakeholderIdCounter = s.stakeholderIdCounter ∧
    s2.stakeholderByAddress = s.stakeholderByAddress ∧
    (∀ i, i ≠ tid → s2.stakeholders i = s.stakeholders i) ∧
    s2.stakeholders tid = { s.stakeholders tid with isActive := false } ∧
    (s.stakeholders tid).id ≠ 0 := by
  unfold deactivateStakeholder at h
  split_ifs at h with h1
  injection h with h
  subst h
  refine ⟨rfl, rfl, rfl, rfl, rfl, rfl, ?_, by simp, h1⟩
  intro i hi
  simp [upd_ne _ _ _ hi]

theorem wf_init : WF init := by
  refine ⟨fun i _ => rfl, fun i hi => absurd rfl hi, fun i _ => rfl, fun a ha => absurd rfl ha⟩

theorem wf_applyOp (s : Registry) (op : Op) (hWF : WF s) : WF (applyOp s op) := by
  rcases applyOp_eq s op with hE | hOk
  · rw [hE]
    exact hWF
  · cases op with
    | registerStakeholder sender now nm org ty loc ci ph =>
      obtain ⟨hp, hm, hpc, hmc, hsc, hba, hst, hid, _, _⟩ := registerStakeholder_ok hOk
      refine ⟨?_, ?_, ?_, ?_⟩
      · intro i hi
        rw [hpc] at hi
        rw [hp]
        exact hWF.freshProjects i hi
      · intro i hi
        rw [hm] at hi
        rw [hm, hp]
        exact hWF.mrvProject i hi
      · intro i hi
        rw [hsc] at hi
        rw [hst i (by omega)]
        exact hWF.freshStakeholders i (by omega)
      · intro a ha
        rw [hba] at ha ⊢
        by_cases hsend : a = sender
        · subst hsend
          rw [upd_same] at ha ⊢
          rw [hid]
          omega
        · rw [upd_ne _ _ _ hsend] at ha ⊢
          have h0 := hWF.addrStakeholder a ha
          have hle := hWF.stakLe h0
          rw [hst _ (by omega)]
          exact h0
    | approveStakeholder sender now tid =>
      obtain ⟨hp, hm, hpc, hmc, hsc, hba, hst, htid, hex⟩ := approveStakeholder_ok hOk
      have htle := hWF.stakLe hex
      refine ⟨?_, ?_, ?_, ?_⟩
      · intro i hi
        rw [hpc] at hi
        rw [hp]
        exact hWF.freshProjects i hi
      · intro i hi
        rw [hm] at hi
        rw [hm, hp]
        exact hWF.mrvProject i hi
      · intro i hi
        rw [hsc] at hi
        rw [hst i (by omega)]
        exact hWF.freshStakeholders i hi
      · intro a ha
        rw [hba] at ha ⊢
        have h0 := hWF.addrStakeholder a ha
        by_cases hia : s.stakeholderByAddress a = tid
        · rw [hia, htid]
          simpa [hia] using h0
        · rw [hst _ hia]
          exact h0
    | registerProject sender now nm ds loc co area ty docs est =>
      obtain ⟨hm, hpc, hmc, hsc, hba, hpElse, hpId, _, hstElse, hstSid, hsid0, happ⟩ :=
        registerProject_ok hOk
      have hsidEx : (s.stakeholders (s.stakeholderByAddress sender)).id ≠ 0 :=
        hWF.addrStakeholder sender hsid0
      have hsidLe := hWF.stakLe hsidEx
      refine ⟨?_, ?_, ?_, ?_⟩
      · intro i hi
        rw [hpc] at hi
        rw [hpElse i (by omega)]
        exact hWF.freshProjects i (by omega)
      · intro i hi
        rw [hm] at hi
        rw [hm]
        by_cases hq : (s.mrvData i).projectId = s.projectIdCounter + 1
        · rw [hq, hpId]
          omega
        · rw [hpElse _ hq]
          exact hWF.mrvProject i hi
      · intro i hi
        rw [hsc] at hi
        rw [hstElse i (by omega)]
        exact hWF.freshStakeholders i hi
      · intro a ha
        rw [hba] at ha ⊢
        have h0 := hWF.addrStakeholder a ha
        by_cases hia : s.stakeholderByAddress a = s.stakeholderByAddress sender
        · rw [hia, hstSid]
          simpa [hia] using h0
        · rw [hstElse _ hia]
          exact h0
    | updateProjectStatus sender now pid ns reason =>
      obtain ⟨hm, hpc, hmc, hsc, hba, hst, hpElse, hpId, _, hex⟩ :=
        @updateProjectStatus_ok s _ sender now pid ns reason hOk
      have hple := hWF.projLe hex
      refine ⟨?_, ?_, ?_, ?_⟩
      · intro i hi
        rw [hpc] at hi
        rw [hpElse i (by omega)]
        exact hWF.freshProjects i hi
      · intro i hi
        rw [hm] at hi
        rw [hm]
        by_cases hq : (s.mrvData i).projectId = pid
        · rw [hq, hpId]
          exact hex
        · rw [hpElse _ hq]
          exact hWF.mrvProject i hi
      · intro i hi
        rw [hsc] at hi
        rw [hst]
        exact hWF.freshStakeholders i hi
      · intro a ha
        rw [hba] at ha ⊢
        rw [hst]
        exact hWF.addrStakeholder a ha
    | submitMRVData sender now pid dh co mu c b a2 hs =>
      obtain ⟨hpc, hmc, hsc, hba, hst, hpElse, hpPid, hmElse, hmId, hmPid, hex⟩ :=
        submitMRVData_ok hOk
      have hple := hWF.projLe hex
      refine ⟨?_, ?_, ?_, ?_⟩
      · intro i hi
        rw [hpc] at hi
        rw [hpElse i (by omega)]
        exact hWF.freshProjects i hi
      · intro i hi
        by_cases hd : i = s.mrvDataIdCounter + 1
        · subst hd
          rw [hmPid]
          by_cases hq : pid = pid
          · rw [hpPid]
            simpa using hex
          · exact absurd rfl hq
        · rw [hmElse i hd] at hi ⊢
          have h0 := hWF.mrvProject i hi
          by_cases hq : (s.mrvData i).projectId = pid
          · rw [hq, hpPid]
            simpa using hex
          · rw [hpElse _ hq]
            exact h0
      · intro i hi
        rw [hsc] at hi
        rw [hst]
        exact hWF.freshStakeholders i hi
      · intro a ha
        rw [hba] at ha ⊢
        rw [hst]
        exact hWF.addrStakeholder a ha
    | verifyMRVData sender now dataId vstatus notes =>
      cases vstatus with
      | Verified =>
        obtain ⟨hid0, _, hpc, hmc, hsc, hba, hpElse, hpId, _, _, hmElse, hmId, hmPid,
          hstPt, _⟩ := verifyMRVData_verified_ok rfl hOk
        have hpEx := hWF.mrvProject dataId hid0
        have hple := hWF.projLe hpEx
        refine ⟨?_, ?_, ?_, ?_⟩
        · intro i hi
          rw [hpc] at hi
          rw [hpElse i (by omega)]
          exact hWF.freshProjects i hi
        · intro i hi
          by_cases hd : i = dataId
          · subst hd
            rw [hmPid]
            rw [hpId]
            exact hpEx
          · rw [hmElse i hd] at hi ⊢
            have h0 := hWF.mrvProject i hi
            by_cases hq : (s.mrvData i).projectId = (s.mrvData dataId).projectId
            · rw [hq, hpId]
              exact hpEx
            · rw [hpElse _ hq]
              exact h0
        · intro i hi
          rw [hsc] at hi
          rcases hstPt i with he | ⟨hne0, hbaEq, _⟩
          · rw [he]
            exact hWF.freshStakeholders i hi
          · have hba0 : s.stakeholderByAddress
                ((s.projects (s.mrvData dataId).projectId).owner) ≠ 0 := by
              rw [hbaEq]
              exact hne0
            have h0 := hWF.addrStakeholder _ hba0
            rw [hbaEq] at h0
            exact absurd (hWF.stakLe h0) (by omega)
        · intro a ha
          rw [hba] at ha ⊢
          have h0 := hWF.addrStakeholder a ha
          rcases hstPt (s.stakeholderByAddress a) with he | ⟨_, _, hchg⟩
          · rw [he]
            exact h0
          · rw [hchg]
            simpa using h0
      | Rejected =>
        obtain ⟨hp, hpc, hmc, hsc, hba, hmElse, hmId, hmPid, hstPt, _⟩ :=
          verifyMRVData_rejected_ok rfl hOk
        refine ⟨?_, ?_, ?_, ?_⟩
        · intro i hi
          rw [hpc] at hi
          rw [hp]
          exact hWF.freshProjects i hi
        · intro i hi
          rw [hp]
          by_cases hd : i = dataId
          · subst hd
            rw [hmPid]
            exact hWF.mrvProject _ (by rwa [hmId] at hi)
          · rw [hmElse i hd] at hi ⊢
            exact hWF.mrvProject i hi
        · intro i hi
          rw [hsc] at hi
          rcases hstPt i with he | ⟨hne0, hbaEq, _⟩
          · rw [he]
            exact hWF.freshStakeholders i hi
          · have hba0 : s.stakeholderByAddress
                ((s.projects (s.mrvData dataId).projectId).owner) ≠ 0 := by
              rw [hbaEq]
              exact hne0
            have h0 := hWF.addrStakeholder _ hba0
            rw [hbaEq] at h0
            exact absurd (hWF.stakLe h0) (by omega)
        · intro a ha
          rw [hba] at ha ⊢
          have h0 := hWF.addrStakeholder a ha
          rcases hstPt (s.stakeholderByAddress a) with he | ⟨_, _, hchg⟩
          · rw [he]
            exact h0
          · rw [hchg]
            simpa using h0
      | Submitted =>
        obtain ⟨hp, hst, hpc, hmc, hsc, hba, hmElse, hmId, hmPid⟩ :=
          verifyMRVData_other_ok (by simp) (by simp) hOk
        refine ⟨?_, ?_, ?_, ?_⟩
        · intro i hi
          rw [hpc] at hi
          rw [hp]
          exact hWF.freshProjects i hi
        · intro i hi
          rw [hp]
          by_cases hd : i = dataId
          · subst hd
            rw [hmPid]
            exact hWF.mrvProject _ (by rwa [hmId] at hi)
          · rw [hmElse i hd] at hi ⊢
            exact hWF.mrvProject i hi
        · intro i hi
          rw [hsc] at hi
          rw [hst]
          exact hWF.freshStakeholders i hi
        · intro a ha
          rw [hba] at ha ⊢
          rw [hst]
          exact hWF.addrStakeholder a ha
      | UnderReview =>
        obtain ⟨hp, hst, hpc, hmc, hsc, hba, hmElse, hmId, hmPid⟩ :=
          verifyMRVData_other_ok (by simp) (by simp) hOk
        refine ⟨?_, ?_, ?_, ?_⟩
        · intro i hi
          rw [hpc] at hi
          rw [hp]
          exact hWF.freshProjects i hi
        · intro i hi
          rw [hp]
          by_cases hd : i = dataId
          · subst hd
            rw [hmPid]
            exact hWF.mrvProject _ (by rwa [hmId] at hi)
          · rw [hmElse i hd] at hi ⊢
            exact hWF.mrvProject i hi
        · intro i hi
          rw [hsc] at hi
          rw [hst]
          exact hWF.freshStakeholders i hi
        · intro a ha
          rw [hba] at ha ⊢
          rw [hst]
          exact hWF.addrStakeholder a ha
      | RequiresUpdate =>
        obtain ⟨hp, hst, hpc, hmc, hsc, hba, hmElse, hmId, hmPid⟩ :=
          verifyMRVData_other_ok (by simp) (by simp) hOk
        refine ⟨?_, ?_, ?_, ?_⟩
        · intro i hi
          rw [hpc] at hi
          rw [hp]
          exact hWF.freshProjects i hi
        · intro i hi
          rw [hp]
          by_cases hd : i = dataId
          · subst hd
            rw [hmPid]
            exact hWF.mrvProject _ (by rwa [hmId] at hi)
          · rw [hmElse i hd] at hi ⊢
            exact hWF.mrvProject i hi
        · intro i hi
          rw [hsc] at hi
          rw [hst]
          exact hWF.freshStakeholders i hi
        · intro a ha
          rw [hba] at ha ⊢
          rw [hst]
          exact hWF.addrStakeholder a ha
    | deactivateProject now pid =>
      obtain ⟨hm, hst, hpc, hmc, hsc, hba, hpElse, hpPid, hex⟩ := deactivateProject_ok hOk
      have hple := hWF.projLe hex
      refine ⟨?_, ?_, ?_, ?_⟩
      · intro i hi
        rw [hpc] at hi
        rw [hpElse i (by omega)]
        exact hWF.freshProjects i hi
      · intro i hi
        rw [hm] at hi
        rw [hm]
        by_cases hq : (s.mrvData i).projectId = pid
        · rw [hq, hpPid]
          simpa using hq ▸ hWF.mrvProject i hi
        · rw [hpElse _ hq]
          exact hWF.mrvProject i hi
      · intro i hi
        rw [hsc] at hi
        rw [hst]
        exact hWF.freshStakeholders i hi
      · intro a ha
        rw [hba] at ha ⊢
        rw [hst]
        exact hWF.addrStakeholder a ha
    | deactivateStakeholder tid =>
      obtain ⟨hp, hm, hpc, hmc, hsc, hba, hstElse, hstTid, hex⟩ := deactivateStakeholder_ok hOk
      have htle := hWF.stakLe hex
      refine ⟨?_, ?_, ?_, ?_⟩
      · intro i hi
        rw [hpc] at hi
        rw [hp]
        exact hWF.freshProjects i hi
      · intro i hi
        rw [hm] at hi
        rw [hm, hp]
        exact hWF.mrvProject i hi
      · intro i hi
        rw [hsc] at hi
        rw [hstElse i (by omega)]
        exact hWF.freshStakeholders i hi
      · intro a ha
        rw [hba] at ha ⊢
        have h0 := hWF.addrStakeholder a ha
        by_cases hia : s.stakeholderByAddress a = tid
        · rw [hia, hstTid]
          simpa [hia] using h0
        · rw [hstElse _ hia]
          exact h0

theorem wf_foldl (ops : List Op) : ∀ s : Registry, WF s → WF (ops.foldl applyOp s) := by
  induction ops with
  | nil => exact fun s h => h
  | cons op rest ih =>
    intro s h
    exact ih (applyOp s op) (wf_applyOp s op h)

theorem wf_reachable {s : Registry} (h : Reachable s) : WF s := by
  obtain ⟨ops, rfl⟩ := h
  exact wf_foldl ops init wf_init

/-- One call changes a project's actualCarbonCredits only when it is a
verifyMRVData call that lands in the Verified branch, and then by exactly
the stored record's carbonSequestration. -/
theorem credits_step (s : Registry) (op : Op) (pid : Nat) (hWF : WF s) :
    ((applyOp s op).projects pid).actualCarbonCredits =
        (s.projects pid).actualCarbonCredits ∨
    (∃ sender now dataId notes,
      op = Op.verifyMRVData sender now dataId MRVStatus.Verified notes ∧
      (s.mrvData dataId).projectId = pid ∧
      ((applyOp s op).projects pid).actualCarbonCredits =
        (s.projects pid).actualCarbonCredits +
          (s.mrvData dataId).carbonSequestration) := by
  rcases applyOp_eq s op with hE | hOk
  · rw [hE]
    exact Or.inl rfl
  · cases op with
    | registerStakeholder sender now nm org ty loc ci ph =>
      obtain ⟨hp, _⟩ := registerStakeholder_ok hOk
      exact Or.inl (by rw [hp])
    | approveStakeholder sender now tid =>
      obtain ⟨hp, _⟩ := approveStakeholder_ok hOk
      exact Or.inl (by rw [hp])
    | registerProject sender now nm ds loc co area ty docs est =>
      obtain ⟨hm, hpc, hmc, hsc, hba, hpElse, hpId, hpCred, _, _, _, _⟩ :=
        registerProject_ok hOk
      by_cases hp1 : pid = s.projectIdCounter + 1
      · subst hp1
        refine Or.inl ?_
        rw [hpCred, hWF.freshProjects _ (by omega)]
        rfl
      · exact Or.inl (by rw [hpElse pid hp1])
    | updateProjectStatus sender now pid2 ns reason =>
      obtain ⟨hm, hpc, hmc, hsc, hba, hst, hpElse, hpId, hpCred, hex⟩ :=
        @updateProjectStatus_ok s _ sender now pid2 ns reason hOk
      by_cases hp1 : pid = pid2
      · subst hp1
        exact Or.inl hpCred
      · exact Or.inl (by rw [hpElse pid hp1])
    | submitMRVData sender now pid2 dh co mu c b a2 hs =>
      obtain ⟨hpc, hmc, hsc, hba, hst, hpElse, hpPid, _⟩ := submitMRVData_ok hOk
      by_cases hp1 : pid = pid2
      · subst hp1
        exact Or.inl (by rw [hpPid])
      · exact Or.inl (by rw [hpElse pid hp1])
    | verifyMRVData sender now dataId vstatus notes =>
      cases vstatus with
      | Verified =>
        obtain ⟨hid0, hstat, hpc, hmc, hsc, hba, hpElse, hpId, hpOwn, hpCred, _⟩ :=
          verifyMRVData_verified_ok rfl hOk
        by_cases hp1 : (s.mrvData dataId).projectId = pid
        · right
          refine ⟨sender, now, dataId, notes, rfl, hp1, ?_⟩
          rw [← hp1]
          exact hpCred
        · refine Or.inl ?_
          rw [hpElse pid (fun hc => hp1 hc.symm)]
      | Rejected =>
        obtain ⟨hp, _⟩ := verifyMRVData_rejected_ok rfl hOk
        exact Or.inl (by rw [hp])
      | Submitted =>
        obtain ⟨hp, _⟩ := verifyMRVData_other_ok (by simp) (by simp) hOk
        exact Or.inl (by rw [hp])
      | UnderReview =>
        obtain ⟨hp, _⟩ := verifyMRVData_other_ok (by simp) (by simp) hOk
        exact Or.inl (by rw [hp])
      | RequiresUpdate =>
        obtain ⟨hp, _⟩ := verifyMRVData_other_ok (by simp) (by simp) hOk
        exact Or.inl (by rw [hp])
    | deactivateProject now pid2 =>
      obtain ⟨hm, hst, hpc, hmc, hsc, hba, hpElse, hpPid, hex⟩ := deactivateProject_ok hOk
      by_cases hp1 : pid = pid2
      · subst hp1
        exact Or.inl (by rw [hpPid])
      · exact Or.inl (by rw [hpElse pid hp1])
    | deactivateStakeholder tid =>
      obtain ⟨hp, _⟩ := deactivateStakeholder_ok hOk
      exact Or.inl (by rw [hp])

theorem credits_mono (ops : List Op) : ∀ (s : Registry) (pid : Nat), WF s →
    (s.projects pid).actualCarbonCredits ≤
      ((ops.foldl applyOp s).projects pid).actualCarbonCredits := by
  induction ops with
  | nil => exact fun s pid _ => le_refl _
  | cons op rest ih =>
    intro s pid hWF
    have h2 := ih (applyOp s op) pid (wf_applyOp s op hWF)
    have h1 := credits_step s op pid hWF
    rw [List.foldl_cons]
    rcases h1 with he | ⟨_, _, _, _, _, _, hinc⟩
    · omega
    · omega

theorem repStep_le {sc : Nat} (h : sc ≤ 1000) (pos : Bool) : repStep sc pos ≤ 1000 := by
  unfold repStep
  split_ifs <;> omega

theorem rep_le_step (s : Registry) (op : Op)
    (h : ∀ i, (s.stakeholders i).reputationScore ≤ 1000) :
    ∀ i, ((applyOp s op).stakeholders i).reputationScore ≤ 1000 := by
  rcases applyOp_eq s op with hE | hOk
  · rw [hE]
    exact h
  · cases op with
    | registerStakeholder sender now nm org ty loc ci ph =>
      obtain ⟨_, _, _, _, _, _, hst, _, _, hscore⟩ := registerStakeholder_ok hOk
      intro i
      by_cases hi : i = s.stakeholderIdCounter + 1
      · subst hi
        rw [hscore]
        omega
      · rw [hst i hi]
        exact h i
    | approveStakeholder sender now tid =>
      obtain ⟨_, _, _, _, _, _, hst, htid, _⟩ := approveStakeholder_ok hOk
      intro i
      by_cases hi : i = tid
      · subst hi
        rw [htid]
        simpa using h i
      · rw [hst i hi]
        exact h i
    | registerProject sender now nm ds loc co area ty docs est =>
      obtain ⟨_, _, _, _, _, _, _, _, hstElse, hstSid, _, _⟩ := registerProject_ok hOk
      intro i
      by_cases hi : i = s.stakeholderByAddress sender
      · rw [hi, hstSid]
        simpa using h (s.stakeholderByAddress sender)
      · rw [hstElse i hi]
        exact h i
    | updateProjectStatus sender now pid2 ns reason =>
      obtain ⟨_, _, _, _, _, hst, _⟩ :=
        @updateProjectStatus_ok s _ sender now pid2 ns reason hOk
      intro i
      rw [hst]
      exact h i
    | submitMRVData sender now pid2 dh co mu c b a2 hs =>
      obtain ⟨_, _, _, _, hst, _⟩ := submitMRVData_ok hOk
      intro i
      rw [hst]
      exact h i
    | verifyMRVData sender now dataId vstatus notes =>
      cases vstatus with
      | Verified =>
        obtain ⟨_, _, _, _, _, _, _, _, _, _, _, _, _, hstPt, _⟩ :=
          verifyMRVData_verified_ok rfl hOk
        intro i
        rcases hstPt i with he | ⟨_, _, hchg⟩
        · rw [he]
          exact h i
        · rw [hchg]
          simpa using repStep_le (h i) true
      | Rejected =>
        obtain ⟨_, _, _, _, _, _, _, _, hstPt, _⟩ := verifyMRVData_rejected_ok rfl hOk
        intro i
        rcases hstPt i with he | ⟨_, _, hchg⟩
        · rw [he]
          exact h i
        · rw [hchg]
          simpa using repStep_le (h i) false
      | Submitted =>
        obtain ⟨_, hst, _⟩ := verifyMRVData_other_ok (by simp) (by simp) hOk
        intro i
        rw [hst]
        exact h i
      | UnderReview =>
        obtain ⟨_, hst, _⟩ := verifyMRVData_other_ok (by simp) (by simp) hOk
        intro i
        rw [hst]
        exact h i
      | RequiresUpdate =>
        obtain ⟨_, hst, _⟩ := verifyMRVData_other_ok (by simp) (by simp) hOk
        intro i
        rw [hst]
        exact h i
    | deactivateProject now pid2 =>
      obtain ⟨_, hst, _⟩ := deactivateProject_ok hOk
      intro i
      rw [hst]
      exact h i
    | deactivateStakeholder tid =>
      obtain ⟨_, _, _, _, _, _, hstElse, hstTid, _⟩ := deactivateStakeholder_ok hOk
      intro i
      by_cases hi : i = tid
      · subst hi
        rw [hstTid]
        simpa using h i
      · rw [hstElse i hi]
        exact h i

theorem rep_le_foldl (ops : List Op) : ∀ s : Registry,
    (∀ i, (s.stakeholders i).reputationScore ≤ 1000) →
    ∀ i, (((ops.foldl applyOp s).stakeholders i).reputationScore ≤ 1000) := by
  induction ops with
  | nil => exact fun s h => h
  | cons op rest ih =>
    intro s h
    exact ih (applyOp s op) (rep_le_step s op h)

theorem approved_step (s : Registry) (op : Op) (hWF : WF s) (i : Nat)
    (h : (s.stakeholders i).isApproved = true) :
    ((applyOp s op).stakeholders i).isApproved = true := by
  rcases applyOp_eq s op with hE | hOk
  · rw [hE]
    exact h
  · cases op with
    | registerStakeholder sender now nm org ty loc ci ph =>
      obtain ⟨_, _, _, _, _, _, hst, _, _, _⟩ := registerStakeholder_ok hOk
      have hile : i ≤ s.stakeholderIdCounter := by
        by_contra hgt
        push_neg at hgt
        rw [hWF.freshStakeholders i hgt] at h
        exact absurd h (by decide)
      rw [hst i (by omega)]
      exact h
    | approveStakeholder sender now tid =>
      obtain ⟨_, _, _, _, _, _, hst, htid, _⟩ := approveStakeholder_ok hOk
      by_cases hi : i = tid
      · subst hi
        rw [htid]
      · rw [hst i hi]
        exact h
    | registerProject sender now nm ds loc co area ty docs est =>
      obtain ⟨_, _, _, _, _, _, _, _, hstElse, hstSid, _, _⟩ := registerProject_ok hOk
      by_cases hi : i = s.stakeholderByAddress sender
      · rw [hi, hstSid]
        rw [hi] at h
        simpa using h
      · rw [hstElse i hi]
        exact h
    | updateProjectStatus sender now pid2 ns reason =>
      obtain ⟨_, _, _, _, _, hst, _⟩ :=
        @updateProjectStatus_ok s _ sender now pid2 ns reason hOk
      rw [hst]
      exact h
    | submitMRVData sender now pid2 dh co mu c b a2 hs =>
      obtain ⟨_, _, _, _, hst, _⟩ := submitMRVData_ok hOk
      rw [hst]
      exact h
    | verifyMRVData sender now dataId vstatus notes =>
      cases vstatus with
      | Verified =>
        obtain ⟨_, _, _, _, _, _, _, _, _, _, _, _, _, hstPt, _⟩ :=
          verifyMRVData_verified_ok rfl hOk
        rcases hstPt i with he | ⟨_, _, hchg⟩
        · rw [he]
          exact h
        · rw [hchg]
          simpa using h
      | Rejected =>
        obtain ⟨_, _, _, _, _, _, _, _, hstPt, _⟩ := verifyMRVData_rejected_ok rfl hOk
        rcases hstPt i with he | ⟨_, _, hchg⟩
        · rw [he]
          exact h
        · rw [hchg]
          simpa using h
      | Submitted =>
        obtain ⟨_, hst, _⟩ := verifyMRVData_other_ok (by simp) (by simp) hOk
        rw [hst]
        exact h
      | UnderReview =>
        obtain ⟨_, hst, _⟩ := verifyMRVData_other_ok (by simp) (by simp) hOk
        rw [hst]
        exact h
      | RequiresUpdate =>
        obtain ⟨_, hst, _⟩ := verifyMRVData_other_ok (by simp) (by simp) hOk
        rw [hst]
        exact h
    | deactivateProject now pid2 =>
      obtain ⟨_, hst, _⟩ := deactivateProject_ok hOk
      rw [hst]
      exact h
    | deactivateStakeholder tid =>
      obtain ⟨_, _, _, _, _, _, hstElse, hstTid, _⟩ := deactivateStakeholder_ok hOk
      by_cases hi : i = tid
      · subst hi
        rw [hstTid]
        simpa using h
      · rw [hstElse i hi]
        exact h

theorem approved_foldl (ops : List Op) : ∀ s : Registry, WF s → ∀ i : Nat,
    (s.stakeholders i).isApproved = true →
    (((ops.foldl applyOp s).stakeholders i).isApproved = true) := by
  induction ops with
  | nil => exact fun s _ i h => h
  | cons op rest ih =>
    intro s hWF i h
    exact ih (applyOp s op) (wf_applyOp s op hWF) i (approved_step s op hWF i h)

/-- When the record exists, is in a verifiable status and the target
status is not Submitted, verifyMRVData does not revert. -/
theorem verifyMRVData_succeeds {s : Registry} {sender now dataId : Nat}
    {vs : MRVStatus} {notes : String} (hid : ¬ (s.mrvData dataId).id = 0)
    (hstat : (s.mrvData dataId).status = MRVStatus.Submitted ∨
      (s.mrvData dataId).status = MRVStatus.UnderReview)
    (hvs : ¬ vs = MRVStatus.Submitted) :
    ∃ s2, verifyMRVData s sender now dataId vs notes = Except.ok s2 := by
  unfold verifyMRVData
  rw [if_neg hid, if_neg (not_not_intro hstat), if_neg hvs]
  split_ifs <;> exact ⟨_, rfl⟩

end BCMain

namespace BCSimple

/-- Pointwise update of a mapping, the model of a Solidity storage write. -/
def upd {α : Type} (f : Nat → α) (k : Nat) (v : α) : Nat → α :=
  fun x => if x = k then v else f x

inductive ProjectStatus
  | Pending
  | Active
  | Verified
  | Suspended
deriving DecidableEq, Repr

inductive EcosystemType
  | Mangrove
  | Seagrass
  | SaltMarsh
  | TidalMarsh
deriving DecidableEq, Repr

inductive StakeholderType
  | NGO
  | Community
  | Panchayat
  | Researcher
  | Government
deriving DecidableEq, Repr

structure Project where
  id : Nat
  name : String
  location : String
  area : Nat
  ecosystemType : EcosystemType
  owner : Nat
  status : ProjectStatus
  createdAt : Nat
  verifiedAt : Nat
  documentHashes : List String
  estimatedCredits : Nat
  actualCredits : Nat
deriving DecidableEq, Repr

structure Stakeholder where
  stakeholderAddress : Nat
  name : String
  organization : String
  stakeholderType : StakeholderType
  location : String
  approved : Bool
  registeredAt : Nat
  projectIds : List Nat
deriving DecidableEq, Repr

structure MRVData where
  projectId : Nat
  collector : Nat
  timestamp : Nat
  dataHash : String
  coordinates : String
  carbonSequestration : Nat
  verified : Bool
  verifier : Nat
  verifiedAt : Nat
deriving DecidableEq, Repr

def zeroProject : Project :=
  { id := 0, name := "", location := "", area := 0, ecosystemType := .Mangrove
    owner := 0, status := .Pending, createdAt := 0, verifiedAt := 0
    documentHashes := [], estimatedCredits := 0, actualCredits := 0 }

def zeroStakeholder : Stakeholder :=
  { stakeholderAddress := 0, name := "", organization := ""
    stakeholderType := .NGO, location := "", approved := false
    registeredAt := 0, projectIds := [] }

def zeroMRVData : MRVData :=
  { projectId := 0, collector := 0, timestamp := 0, dataHash := ""
    coordinates := "", carbonSequestration := 0, verified := false
    verifier := 0, verifiedAt := 0 }

/-- Contract storage of the simplified BlueCarbonRegistry in
src/unnamed/part_000.  Stakeholders are keyed by address. -/
structure Registry where
  projects : Nat → Project
  stakeholders : Nat → Stakeholder
  projectMRVData : Nat → List MRVData
  mrvDataById : Nat → MRVData
  nextProjectId : Nat
  nextMRVDataId : Nat
  totalProjects : Nat
  totalVerifiedProjects : Nat
  totalCarbonSequestered : Nat

/-- The state right after the constructor ran (nextProjectId and
nextMRVDataId start at 1). -/
def init : Registry :=
  { projects := fun _ => zeroProject
    stakeholders := fun _ => zeroStakeholder
    projectMRVData := fun _ => []
    mrvDataById := fun _ => zeroMRVData
    nextProjectId := 1, nextMRVDataId := 1
    totalProjects := 0, totalVerifiedProjects := 0, totalCarbonSequestered := 0 }

inductive Err
  | projectNameRequired
  | projectLocationRequired
  | projectAreaZero
  | stakeholderNotApproved
  | stakeholderAlreadyRegistered
  | nameRequired
  | organizationRequired
  | stakeholderNotRegistered
  | stakeholderAlreadyApproved
  | projectDoesNotExist
  | projectNotActive
  | dataHashRequired
  | carbonSequestrationZero
  | mrvDataDoesNotExist
  | dataAlreadyVerified
  | invalidProjectStatus
  | statusUnchanged
  | counterUnderflow
deriving DecidableEq, Repr

/-- registerProject, lines 93-130 of part_000. -/
def registerProject (s : Registry) (sender now : Nat) (name location : String)
    (area : Nat) (etype : EcosystemType) (documentHashes : List String)
    (estimatedCredits : Nat) : Except Err Registry :=
  if name.length = 0 then .error .projectNameRequired
  else if location.length = 0 then .error .projectLocationRequired
  else if area = 0 then .error .projectAreaZero
  else if ¬ (s.stakeholders sender).approved then .error .stakeholderNotApproved
  else
    let projectId := s.nextProjectId
    let p : Project :=
      { id := projectId, name := name, location := location, area := area
        ecosystemType := etype, owner := sender, status := .Pending
        createdAt := now, verifiedAt := 0, documentHashes := documentHashes
        estimatedCredits := estimatedCredits, actualCredits := 0 }
    let st := s.stakeholders sender
    let st2 := { st with projectIds := st.projectIds ++ [projectId] }
    .ok { s with
          projects := upd s.projects projectId p
          stakeholders := upd s.stakeholders sender st2
          totalProjects := s.totalProjects + 1
          nextProjectId := s.nextProjectId + 1 }

/-- registerStakeholder, lines 135-159 of part_000. -/
def registerStakeholder (s : Registry) (sender now : Nat)
    (name organization : String) (stype : StakeholderType) (location : String) :
    Except Err Registry :=
  if (s.stakeholders sender).stakeholderAddress ≠ 0 then .error .stakeholderAlreadyRegistered
  else if name.length = 0 then .error .nameRequired
  else if organization.length = 0 then .error .organizationRequired
  else
    let st : Stakeholder :=
      { stakeholderAddress := sender, name := name, organization := organization
        stakeholderType := stype, location := location, approved := false
        registeredAt := now, projectIds := [] }
    .ok { s with stakeholders := upd s.stakeholders sender st }

/-- approveStakeholder, lines 164-174 of part_000. -/
def approveStakeholder (s : Registry) (stakeholder : Nat) : Except Err Registry :=
  if (s.stakeholders stakeholder).stakeholderAddress = 0 then .error .stakeholderNotRegistered
  else if (s.stakeholders stakeholder).approved then .error .stakeholderAlreadyApproved
  else
    let st := s.stakeholders stakeholder
    .ok { s with stakeholders := upd s.stakeholders stakeholder { st with approved := true } }

/-- submitMRVData, lines 179-210 of part_000.  The fresh record is pushed
into the projectMRVData array and stored at mrvDataById as two separate
storage copies. -/
def submitMRVData (s : Registry) (sender now projectId : Nat)
    (dataHash coordinates : String) (carbonSequestration : Nat) :
    Except Err Registry :=
  if (s.projects projectId).id = 0 then .error .projectDoesNotExist
  else if ¬ (s.projects projectId).status = ProjectStatus.Active then .error .projectNotActive
  else if dataHash.length = 0 then .error .dataHashRequired
  else if carbonSequestration = 0 then .error .carbonSequestrationZero
  else
    let dataId := s.nextMRVDataId
    let newData : MRVData :=
      { projectId := projectId, collector := sender, timestamp := now
        dataHash := dataHash, coordinates := coordinates
        carbonSequestration := carbonSequestration, verified := false
        verifier := 0, verifiedAt := 0 }
    .ok { s with
          projectMRVData := upd s.projectMRVData projectId (s.projectMRVData projectId ++ [newData])
          mrvDataById := upd s.mrvDataById dataId newData
          nextMRVDataId := s.nextMRVDataId + 1 }

/-- verifyMRVData, lines 215-229 of part_000.  Only the mrvDataById copy
of the record is updated; the array copy in projectMRVData is not
touched, while the project credits and the global total are. -/
def verifyMRVData (s : Registry) (sender now dataId : Nat) : Except Err Registry :=
  if (s.mrvDataById dataId).timestamp = 0 then .error .mrvDataDoesNotExist
  else if (s.mrvDataById dataId).verified then .error .dataAlreadyVerified
  else
    let d0 := s.mrvDataById dataId
    let d := { d0 with verified := true, verifier := sender, verifiedAt := now }
    let s1 := { s with mrvDataById := upd s.mrvDataById dataId d }
    let projectId := (s1.mrvDataById dataId).projectId
    let p := s1.projects projectId
    let p1 := { p with
                actualCredits := p.actualCredits + (s1.mrvDataById dataId).carbonSequestration }
    .ok { s1 with
          projects := upd s1.projects projectId p1
          totalCarbonSequestered :=
            s1.totalCarbonSequestered + (s1.mrvDataById dataId).carbonSequestration }

/-- verifyProject, lines 234-247 of part_000.  The source checks the
status against Verified only after assigning Verified, so the counter
increment can never fire; the branch is reproduced as written. -/
def verifyProject (s : Registry) (sender now projectId : Nat) : Except Err Registry :=
  if (s.projects projectId).id = 0 then .error .projectDoesNotExist
  else if ¬ ((s.projects projectId).status = ProjectStatus.Pending ∨
             (s.projects projectId).status = ProjectStatus.Active) then
    .error .invalidProjectStatus
  else if (upd s.projects projectId
              { s.projects projectId with
                  status := .Verified, verifiedAt := now } projectId).status ≠
            ProjectStatus.Verified then
    .ok { s with
          projects := upd s.projects projectId
            { s.projects projectId with status := .Verified, verifiedAt := now }
          totalVerifiedProjects := s.totalVerifiedProjects + 1 }
  else
    .ok { s with
          projects := upd s.projects projectId
            { s.projects projectId with status := .Verified, verifiedAt := now } }

/-- changeProjectStatus, lines 252-268 of part_000.  The counter
decrement is Solidity 0.8 checked subtraction, so it reverts on
underflow. -/
def changeProjectStatus (s : Registry) (now projectId : Nat)
    (newStatus : ProjectStatus) : Except Err Registry :=
  if (s.projects projectId).id = 0 then .error .projectDoesNotExist
  else if (s.projects projectId).status = newStatus then .error .statusUnchanged
  else if (s.projects projectId).status = ProjectStatus.Verified ∧
          newStatus ≠ ProjectStatus.Verified then
    if s.totalVerifiedProjects = 0 then .error .counterUnderflow
    else
      let p := s.projects projectId
      let p1 := { p with status := newStatus }
      .ok { s with
            projects := upd s.projects projectId p1
            totalVerifiedProjects := s.totalVerifiedProjects - 1 }
  else if (s.projects projectId).status ≠ ProjectStatus.Verified ∧
          newStatus = ProjectStatus.Verified then
    let p := s.projects projectId
    let p2 := { p with status := newStatus, verifiedAt := now }
    .ok { s with
          projects := upd s.projects projectId p2
          totalVerifiedProjects := s.totalVerifiedProjects + 1 }
  else
    let p := s.projects projectId
    let p1 := { p with status := newStatus }
    .ok { s with projects := upd s.projects projectId p1 }

/-- getProjectMRVData, lines 289-291 of part_000. -/
def getProjectMRVData (s : Registry) (projectId : Nat) : List MRVData :=
  s.projectMRVData projectId

/-- One external state-changing call of the simplified contract. -/
inductive Op
  | registerProject (sender now : Nat) (name location : String) (area : Nat)
      (etype : EcosystemType) (documentHashes : List String) (estimatedCredits : Nat)
  | registerStakeholder (sender now : Nat) (name organization : String)
      (stype : StakeholderType) (location : String)
  | approveStakeholder (stakeholder : Nat)
  | submitMRVData (sender now projectId : Nat) (dataHash coordinates : String)
      (carbonSequestration : Nat)
  | verifyMRVData (sender now dataId : Nat)
  | verifyProject (sender now projectId : Nat)
  | changeProjectStatus (now projectId : Nat) (newStatus : ProjectStatus)

def runOp (s : Registry) : Op → Except Err Registry
  | .registerProject sender now name location area etype docs est =>
      registerProject s sender now name location area etype docs est
  | .registerStakeholder sender now name organization stype location =>
      registerStakeholder s sender now name organization stype location
  | .approveStakeholder stakeholder => approveStakeholder s stakeholder
  | .submitMRVData sender now projectId dataHash coords c =>
      submitMRVData s sender now projectId dataHash coords c
  | .verifyMRVData sender now dataId => verifyMRVData s sender now dataId
  | .verifyProject sender now projectId => verifyProject s sender now projectId
  | .changeProjectStatus now projectId newStatus =>
      changeProjectStatus s now projectId newStatus

/-- A transaction: a revert leaves the storage untouched. -/
def applyOp (s : Registry) (op : Op) : Registry :=
  match runOp s op with
  | .ok s2 => s2
  | .error _ => s

/-- The number of stored projects whose status is Verified, read back
from the projects mapping (ids run from 1 to nextProjectId - 1). -/
def countVerified (s : Registry) : Nat :=
  (List.range s.nextProjectId).countP
    (fun i => (s.projects i).status == ProjectStatus.Verified)

@[simp] theorem updS_same {α : Type} (f : Nat → α) (k : Nat) (v : α) :
    upd f k v k = v := by
  simp [upd]

theorem updS_ne {α : Type} (f : Nat → α) (k : Nat) (v : α) {x : Nat}
    (h : x ≠ k) : upd f k v x = f x := by
  simp [upd, h]

theorem applyOpS_eq (s : Registry) (op : Op) :
    applyOp s op = s ∨ runOp s op = Except.ok (applyOp s op) := by
  unfold applyOp
  cases runOp s op <;> simp

/-- The records stored in the projectMRVData arrays are never marked
verified: the verification flag, verifier and timestamp of every array
copy are still the zero values of submission time. -/
def shadowInv (s : Registry) : Prop :=
  ∀ pid d, d ∈ s.projectMRVData pid →
    d.verified = false ∧ d.verifier = 0 ∧ d.verifiedAt = 0

/-- Any record present in a projectMRVData array after one call was
either already there or is a freshly pushed, unverified record. -/
theorem projectMRVData_step (s : Registry) (op : Op) (pid : Nat) (d : MRVData)
    (hd : d ∈ (applyOp s op).projectMRVData pid) :
    d ∈ s.projectMRVData pid ∨
    (d.verified = false ∧ d.verifier = 0 ∧ d.verifiedAt = 0) := by
  rcases applyOpS_eq s op with hE | hOk
  · rw [hE] at hd
    exact Or.inl hd
  · cases op with
    | registerProject sender now nm loc area ty docs est =>
      simp only [runOp] at hOk
      unfold registerProject at hOk
      split_ifs at hOk
      injection hOk with hOk
      rw [← hOk] at hd
      exact Or.inl hd
    | registerStakeholder sender now nm org ty loc =>
      simp only [runOp] at hOk
      unfold registerStakeholder at hOk
      split_ifs at hOk
      injection hOk with hOk
      rw [← hOk] at hd
      exact Or.inl hd
    | approveStakeholder st =>
      simp only [runOp] at hOk
      unfold approveStakeholder at hOk
      split_ifs at hOk
      injection hOk with hOk
      rw [← hOk] at hd
      exact Or.inl hd
    | submitMRVData sender now projectId dh co c =>
      simp only [runOp] at hOk
      unfold submitMRVData at hOk
      split_ifs at hOk
      injection hOk with hOk
      rw [← hOk] at hd
      by_cases hq : pid = projectId
      · subst hq
        simp only [updS_same] at hd
        rcases List.mem_append.mp hd with hold | hnew
        · exact Or.inl hold
        · right
          rcases List.mem_singleton.mp hnew with rfl
          exact ⟨rfl, rfl, rfl⟩
      · rw [show ({ s with
            projectMRVData := upd s.projectMRVData projectId
              (s.projectMRVData projectId ++
                [{ projectId := projectId, collector := sender, timestamp := now
                   dataHash := dh, coordinates := co, carbonSequestration := c
                   verified := false, verifier := 0, verifiedAt := 0 }])
            mrvDataById := upd s.mrvDataById s.nextMRVDataId
              { projectId := projectId, collector := sender, timestamp := now
                dataHash := dh, coordinates := co, carbonSequestration := c
                verified := false, verifier := 0, verifiedAt := 0 }
            nextMRVDataId := s.nextMRVDataId + 1 } : Registry).projectMRVData pid =
              s.projectMRVData pid from updS_ne _ _ _ hq] at hd
        exact Or.inl hd
    | verifyMRVData sender now dataId =>
      simp only [runOp] at hOk
      unfold verifyMRVData at hOk
      split_ifs at hOk
      injection hOk with hOk
      rw [← hOk] at hd
      exact Or.inl hd
    | verifyProject sender now projectId =>
      simp only [runOp] at hOk
      unfold verifyProject at hOk
      split_ifs at hOk
      all_goals
        injection hOk with hOk
        rw [← hOk] at hd
        exact Or.inl hd
    | changeProjectStatus now projectId ns =>
      simp only [runOp] at hOk
      unfold changeProjectStatus at hOk
      split_ifs at hOk
      all_goals
        injection hOk with hOk
        rw [← hOk] at hd
        exact Or.inl hd

/-- verifyMRVData never touches the projectMRVData arrays. -/
theorem verifyMRVData_frame (s : Registry) (sender now dataId : Nat) :
    (applyOp s (Op.verifyMRVData sender now dataId)).projectMRVData =
      s.projectMRVData := by
  rcases applyOpS_eq s (Op.verifyMRVData sender now dataId) with hE | hOk
  · rw [hE]
  · simp only [runOp] at hOk
    unfold verifyMRVData at hOk
    split_ifs at hOk
    injection hOk with hOk
    rw [← hOk]

theorem shadowInv_step (s : Registry) (op : Op) (h : shadowInv s) :
    shadowInv (applyOp s op) := by
  intro pid d hd
  rcases projectMRVData_step s op pid d hd with hold | hfresh
  · exact h pid d hold
  · exact hfresh

theorem shadowInv_foldl (ops : List Op) : ∀ s : Registry,
    shadowInv s → shadowInv (ops.foldl applyOp s) := by
  induction ops with
  | nil => exact fun s h => h
  | cons op rest ih =>
    intro s h
    exact ih (applyOp s op) (shadowInv_step s op h)

end BCSimple

namespace Rest

/-- A digit run followed by an optional fractional part: the tail of the
validator regex piece -?[0-9]+[.]?[0-9]* after the integer digits. -/
def numTail : List Char → Bool
  | [] => true
  | c :: t => c == '.' && t.all Char.isDigit

/-- One signed numeric component of the coordinates regex. -/
def matchSignedNum (cs : List Char) : Bool :=
  match cs with
  | '-' :: t => !(t.takeWhile Char.isDigit).isEmpty && numTail (t.dropWhile Char.isDigit)
  | t => !(t.takeWhile Char.isDigit).isEmpty && numTail (t.dropWhile Char.isDigit)

/-- Split a character list at every comma, the List.Char counterpart of
splitting the string on a single-character separator. -/
def commaSplit : List Char → List (List Char)
  | [] => [[]]
  | c :: t =>
    if c = ',' then [] :: commaSplit t
    else
      match commaSplit t with
      | [] => [[c]]
      | g :: gs => (c :: g) :: gs

/-- The coordinates format check of validation.js: two signed decimal
numbers joined by a single comma. -/
def isCoordinates (s : String) : Bool :=
  match commaSplit s.data with
  | [a, b] => matchSignedNum a && matchSignedNum b
  | _ => false

def isHexChar (c : Char) : Bool :=
  c.isDigit || ('a' ≤ c && c ≤ 'f') || ('A' ≤ c && c ≤ 'F')

/-- The 0x-prefixed 40-hex-digit address regex used all over
validation.js: exactly 42 characters, a 0x prefix, then hex digits. -/
def isEthAddress (s : String) : Bool :=
  s.length == 42 &&
  (match s.data with
   | '0' :: 'x' :: rest => rest.all isHexChar
   | _ => false)

def strLenBetween (s : String) (lo hi : Nat) : Bool :=
  decide (lo ≤ s.length) && decide (s.length ≤ hi)

/-- Request body of POST /projects as far as validateProjectRegistration
inspects it.  Optional request fields are Option; an absent optional
field is not validated, matching express-validator optional().  The
optional ISO-8601 timestamp fields of other endpoints are left out of
the bodies modelled here, which corresponds to requests that omit
them. -/
structure ProjectBody where
  name : String
  location : String
  area : Rat
  ecosystemType : String
  description : Option String
  estimatedCredits : Option Int
  coordinates : Option String
  ownerAddress : Option String
deriving DecidableEq, Repr

/-- The ecosystem types accepted by validateProjectRegistration
(validation.js line 193). -/
def ecosystemTypes : List String :=
  ["mangrove", "seagrass", "saltmarsh", "tidalmarsh"]

def nameErrors (b : ProjectBody) : List String :=
  (if b.name = "" then ["Project name is required"] else []) ++
  (if strLenBetween b.name 3 200 then [] else ["Project name must be between 3 and 200 characters"])

def locationErrors (b : ProjectBody) : List String :=
  (if b.location = "" then ["Project location is required"] else []) ++
  (if strLenBetween b.location 3 200 then [] else ["Location must be between 3 and 200 characters"])

def areaErrors (b : ProjectBody) : List String :=
  if mkRat 1 10 ≤ b.area ∧ b.area ≤ 100000 then []
  else ["Area must be between 0.1 and 100,000 hectares"]

def ecosystemErrors (b : ProjectBody) : List String :=
  (if b.ecosystemType = "" then ["Ecosystem type is required"] else []) ++
  (if b.ecosystemType ∈ ecosystemTypes then [] else ["Invalid ecosystem type"])

def descriptionErrors (b : ProjectBody) : List String :=
  match b.description with
  | none => []
  | some d => if d.length ≤ 2000 then [] else ["Description must not exceed 2000 characters"]

def estimatedCreditsErrors (b : ProjectBody) : List String :=
  match b.estimatedCredits with
  | none => []
  | some n => if 0 ≤ n then [] else ["Estimated credits must be a non-negative integer"]

def coordinatesErrors (b : ProjectBody) : List String :=
  match b.coordinates with
  | none => []
  | some c => if isCoordinates c then [] else ["Coordinates must be in format latitude,longitude"]

/-- validateProjectRegistration, validation.js lines 171-212: the
per-field error lists in source order. -/
def validateProjectRegistration (b : ProjectBody) : List String :=
  nameErrors b ++ locationErrors b ++ areaErrors b ++ ecosystemErrors b ++
  descriptionErrors b ++ estimatedCreditsErrors b ++ coordinatesErrors b

/-- A stored record of projects.json as created by POST /projects. -/
structure ProjRecord where
  id : String
  name : String
  location : String
  area : Rat
  ecosystemType : String
  description : String
  estimatedCredits : Int
  coordinates : String
  ownerAddress : String
  status : String
  createdAt : String
  owner : String
  actualCredits : Rat
  verifiedAt : String
  approvedAt : String
  rejectedAt : String
  rejectionReason : String
  suspendedAt : String
  suspensionReason : String
  lastModified : String
deriving DecidableEq, Repr

/-- A stored record of stakeholders.json. -/
structure StakRecord where
  id : String
  name : String
  organization : String
  stakeholderType : String
  location : String
  status : String
  registrationDate : String
  approvedAt : String
  approvedBy : String
deriving DecidableEq, Repr

/-- A stored record of mrv_data.json as created by POST /mrv-data. -/
structure MrvRecord where
  id : String
  projectId : String
  dataHash : String
  coordinates : String
  carbonSequestration : Rat
  collectorAddress : String
  timestamp : String
  status : String
  verified : Bool
  verifiedAt : String
  verifiedBy : String
deriving DecidableEq, Repr

/-- Request body of POST /mrv-data as validateMRVData inspects it. -/
structure MrvBody where
  projectId : String
  dataHash : String
  coordinates : String
  carbonSequestration : Rat
  collectorAddress : String
deriving DecidableEq, Repr

/-- validateMRVData, validation.js lines 270-307 (the optional timestamp
is absent from the modelled bodies). -/
def validateMRVData (b : MrvBody) : List String :=
  (if b.projectId = "" then ["Project ID is required"] else []) ++
  ((if b.dataHash = "" then ["Data hash is required"] else []) ++
   (if strLenBetween b.dataHash 10 200 then [] else ["Data hash must be between 10 and 200 characters"])) ++
  ((if b.coordinates = "" then ["GPS coordinates are required"] else []) ++
   (if isCoordinates b.coordinates then [] else ["Coordinates must be in format latitude,longitude"])) ++
  (if (0 : Rat) ≤ b.carbonSequestration then [] else ["Carbon sequestration must be a non-negative number"]) ++
  ((if b.collectorAddress = "" then ["Collector address is required"] else []) ++
   (if isEthAddress b.collectorAddress then [] else ["Invalid collector address format"]))

/-- Request body of the admin transition endpoints as validateAdminAction
inspects it. -/
structure AdminBody where
  action : String
  targetId : String
  reason : Option String
  adminAddress : String
deriving DecidableEq, Repr

/-- validateAdminAction, validation.js lines 376-401. -/
def validateAdminAction (b : AdminBody) : List String :=
  ((if b.action = "" then ["Action is required"] else []) ++
   (if b.action ∈ ["approve", "reject", "suspend", "activate", "verify"] then []
    else ["Invalid action type"])) ++
  (if b.targetId = "" then ["Target ID is required"] else []) ++
  (match b.reason with
   | none => []
   | some r => if r.length ≤ 500 then [] else ["Reason must not exceed 500 characters"]) ++
  ((if b.adminAddress = "" then ["Admin address is required"] else []) ++
   (if isEthAddress b.adminAddress then [] else ["Invalid admin address format"]))

/-- An HTTP response of the API, by kind and status code. -/
inductive ApiResponse (α : Type) where
  | ok (status : Nat) (val : α)
  | validationFailed (details : List String)
  | notFound (msg : String)
  | badRequest (msg : String)
deriving DecidableEq, Repr

/-- The three JSON collection files the modelled endpoints touch. -/
structure RestState where
  projects : List ProjRecord
  stakeholders : List StakRecord
  mrvData : List MrvRecord
deriving DecidableEq, Repr

/-- POST /projects, api.js lines 91-115: validation middleware first, then
the record is built and appended to projects.json.  The JS expression
req.body.ownerAddress || the string unknown treats an absent and an empty
ownerAddress alike. -/
def postProjects (s : RestState) (b : ProjectBody) (idStr nowIso : String) :
    ApiResponse ProjRecord × RestState :=
  if validateProjectRegistration b ≠ [] then
    (.validationFailed (validateProjectRegistration b), s)
  else
    let ownerField :=
      match b.ownerAddress with
      | none => "unknown"
      | some a => if a = "" then "unknown" else a
    let newProject : ProjRecord :=
      { id := idStr, name := b.name, location := b.location, area := b.area
        ecosystemType := b.ecosystemType
        description := b.description.getD ""
        estimatedCredits := b.estimatedCredits.getD 0
        coordinates := b.coordinates.getD ""
        ownerAddress := b.ownerAddress.getD ""
        status := "pending", createdAt := nowIso, owner := ownerField
        actualCredits := 0, verifiedAt := "", approvedAt := ""
        rejectedAt := "", rejectionReason := "", suspendedAt := ""
        suspensionReason := "", lastModified := "" }
    (.ok 201 newProject, { s with projects := s.projects ++ [newProject] })

/-- POST /mrv-data, api.js lines 291-314: validation middleware first,
then the entry is appended to mrv_data.json.  No project lookup of any
kind happens on this path. -/
def postMrvData (s : RestState) (b : MrvBody) (idStr nowIso : String) :
    ApiResponse String × RestState :=
  let errs := validateMRVData b
  if errs ≠ [] then (.validationFailed errs, s)
  else
    let newEntry : MrvRecord :=
      { id := idStr, projectId := b.projectId, dataHash := b.dataHash
        coordinates := b.coordinates
        carbonSequestration := b.carbonSequestration
        collectorAddress := b.collectorAddress, timestamp := nowIso
        status := "pending_verification", verified := false
        verifiedAt := "", verifiedBy := "" }
    (.ok 201 newEntry.id, { s with mrvData := s.mrvData ++ [newEntry] })

/-- The field updates PUT /mrv-data/:id/verify applies to the record it
found, api.js lines 325-328. -/
def verifyMrvRecord (nowIso admin : String) (d : MrvRecord) : MrvRecord :=
  { d with verified := true, verifiedAt := nowIso, verifiedBy := admin
           status := "verified" }

/-- findIndex followed by in-place update of the first record with the
given id, the list part of PUT /mrv-data/:id/verify. -/
def verifyFirstMrv (idParam nowIso admin : String) :
    List MrvRecord → Option (List MrvRecord × MrvRecord)
  | [] => none
  | d :: rest =>
    if d.id = idParam then
      let d2 := verifyMrvRecord nowIso admin d
      some (d2 :: rest, d2)
    else
      match verifyFirstMrv idParam nowIso admin rest with
      | none => none
      | some (l, r) => some (d :: l, r)

/-- PUT /mrv-data/:id/verify, api.js lines 316-341: admin-action
validation, 404 on unknown id, and otherwise the record is marked
verified unconditionally, whatever its current status. -/
def putMrvVerify (s : RestState) (idParam : String) (b : AdminBody)
    (nowIso : String) : ApiResponse MrvRecord × RestState :=
  let errs := validateAdminAction b
  if errs ≠ [] then (.validationFailed errs, s)
  else
    match verifyFirstMrv idParam nowIso b.adminAddress s.mrvData with
    | none => (.notFound "MRV data not found", s)
    | some (l, r) => (.ok 200 r, { s with mrvData := l })

/-- The field updates PUT /stakeholders/:id/approve applies, api.js
lines 219-221. -/
def approveStakRecord (nowIso admin : String) (st : StakRecord) : StakRecord :=
  { st with status := "approved", approvedAt := nowIso, approvedBy := admin }

def approveFirstStak (idParam nowIso admin : String) :
    List StakRecord → Option (List StakRecord × StakRecord)
  | [] => none
  | st :: rest =>
    if st.id = idParam then
      let st2 := approveStakRecord nowIso admin st
      some (st2 :: rest, st2)
    else
      match approveFirstStak idParam nowIso admin rest with
      | none => none
      | some (l, r) => some (st :: l, r)

/-- PUT /stakeholders/:id/approve, api.js lines 210-234: admin-action
validation, 404 on unknown id, and otherwise the approved status is
written unconditionally, even when the stakeholder is already
approved. -/
def putStakeholderApprove (s : RestState) (idParam : String) (b : AdminBody)
    (nowIso : String) : ApiResponse StakRecord × RestState :=
  let errs := validateAdminAction b
  if errs ≠ [] then (.validationFailed errs, s)
  else
    match approveFirstStak idParam nowIso b.adminAddress s.stakeholders with
    | none => (.notFound "Stakeholder not found", s)
    | some (l, r) => (.ok 200 r, { s with stakeholders := l })

/-- The verifiedProjects figure of GET /analytics/overview, api.js
line 535: recomputed from the stored collection on every read. -/
def analyticsVerifiedProjects (s : RestState) : Nat :=
  (s.projects.filter (fun p => p.status == "verified")).length

/-- Lookup of a project record by id, as used by GET /projects/:id. -/
def findProject (s : RestState) (pid : String) : Option ProjRecord :=
  s.projects.find? (fun p => p.id == pid)

theorem ite_cons_eq_nil {c : Prop} [Decidable c] {m : String} :
    ((if c then [m] else []) = ([] : List String)) ↔ ¬ c := by
  split_ifs with h <;> simp [h]

theorem ite_nil_eq_nil {c : Prop} [Decidable c] {m : String} :
    ((if c then [] else [m]) = ([] : List String)) ↔ c := by
  split_ifs with h <;> simp [h]

theorem nameErrors_eq_nil {b : ProjectBody} :
    nameErrors b = [] ↔ (¬ b.name = "" ∧ strLenBetween b.name 3 200 = true) := by
  unfold nameErrors
  rw [List.append_eq_nil, ite_cons_eq_nil, ite_nil_eq_nil]

theorem locationErrors_eq_nil {b : ProjectBody} :
    locationErrors b = [] ↔ (¬ b.location = "" ∧ strLenBetween b.location 3 200 = true) := by
  unfold locationErrors
  rw [List.append_eq_nil, ite_cons_eq_nil, ite_nil_eq_nil]

theorem areaErrors_eq_nil {b : ProjectBody} :
    areaErrors b = [] ↔ (mkRat 1 10 ≤ b.area ∧ b.area ≤ 100000) := by
  unfold areaErrors
  rw [ite_nil_eq_nil]

theorem ecosystemErrors_eq_nil {b : ProjectBody} :
    ecosystemErrors b = [] ↔ (¬ b.ecosystemType = "" ∧ b.ecosystemType ∈ ecosystemTypes) := by
  unfold ecosystemErrors
  rw [List.append_eq_nil, ite_cons_eq_nil, ite_nil_eq_nil]

theorem validateProjectRegistration_eq_nil {b : ProjectBody} :
    validateProjectRegistration b = [] ↔
      (nameErrors b = [] ∧ locationErrors b = [] ∧ areaErrors b = [] ∧
       ecosystemErrors b = [] ∧ descriptionErrors b = [] ∧
       estimatedCreditsErrors b = [] ∧ coordinatesErrors b = []) := by
  unfold validateProjectRegistration
  simp [List.append_eq_nil]

theorem mem_ecosystemTypes_ne_empty {e : String} (h : e ∈ ecosystemTypes) :
    ¬ e = "" := by
  intro he
  rw [he] at h
  exact absurd h (by decide)

/-- All the validateProjectRegistration checks other than the ecosystem
type one pass. -/
def OtherFieldsOk (b : ProjectBody) : Prop :=
  nameErrors b = [] ∧ locationErrors b = [] ∧ areaErrors b = [] ∧
  descriptionErrors b = [] ∧ estimatedCreditsErrors b = [] ∧
  coordinatesErrors b = []

instance (b : ProjectBody) : Decidable (OtherFieldsOk b) := by
  unfold OtherFieldsOk
  infer_instance

end Rest

section ClaimC1

/-- A call sequence of the simplified contract: a stakeholder registers,
an admin approves it, the stakeholder registers a project (id 1, status
Pending), and a verifier verifies the project. -/
def c1ops : List BCSimple.Op :=
  [ .registerStakeholder 1 10 ("al") ("org") .NGO ("goa")
  , .approveStakeholder 1
  , .registerProject 1 20 ("bay") ("goa") 50 .Mangrove [] 100
  , .verifyProject 9 30 1 ]

def c1state : BCSimple.Registry := c1ops.foldl BCSimple.applyOp BCSimple.init

/-- C1: the claim says totalVerifiedProjects always equals the number of
stored projects whose status is verified.  In the simplified contract of
src/unnamed/part_000, verifyProject compares the status against Verified
only after assigning Verified, so the increment is dead code: after the
four-call sequence above, project 1 has status Verified and the stored
counter is still 0 while the recount over the projects mapping is 1.
The spec explicitly calls the incremental counter logic of this contract
variant a bug, so the code, not the claim, is wrong here. -/
theorem c1_totalVerifiedProjects_drifts_in_simple_contract :
    (c1state.projects 1).status = BCSimple.ProjectStatus.Verified ∧
    c1state.totalVerifiedProjects = 0 ∧
    BCSimple.countVerified c1state = 1 :=
  ⟨rfl, rfl, rfl⟩

end ClaimC1

section RestFixtures

/-- A well-formed 0x address used by the concrete REST requests. -/
def adminA : String := "0xaaaaaaaaaaaaaaaaaaaaaaaaaaaaaaaaaaaaaaaa"

def adminB : String := "0xbbbbbbbbbbbbbbbbbbbbbbbbbbbbbbbbbbbbbbbb"

end RestFixtures

section ClaimC3

/-- An mrv_data.json record that is already in the verified state. -/
def c3record : Rest.MrvRecord :=
  { id := "7", projectId := "1", dataHash := "hash-0123456789"
    coordinates := "10.5,76.2", carbonSequestration := 5
    collectorAddress := adminA, timestamp := "2024-01-01T00:00:00Z"
    status := "verified", verified := true
    verifiedAt := "2024-01-02T00:00:00Z", verifiedBy := adminA }

def c3state : Rest.RestState :=
  { projects := [], stakeholders := [], mrvData := [c3record] }

def c3body : Rest.AdminBody :=
  { action := "verify", targetId := "7", reason := none, adminAddress := adminB }

/-- C3 counterexample: the REST endpoint PUT /mrv-data/:id/verify applies
verification to a record whose status is already verified.  The call
returns 200 instead of an InvalidTransitionError, and the stored record
changes: verifiedBy and verifiedAt are overwritten.  The claim is false
at this input. -/
theorem c3_rest_verify_ignores_terminal_state :
    c3record.status = "verified" ∧
    (Rest.putMrvVerify c3state ("7") c3body ("2024-03-01T00:00:00Z")).1 =
      Rest.ApiResponse.ok 200
        (Rest.verifyMrvRecord ("2024-03-01T00:00:00Z") adminB c3record) ∧
    Rest.verifyMrvRecord ("2024-03-01T00:00:00Z") adminB c3record ≠ c3record :=
  ⟨rfl, rfl, by decide⟩

end ClaimC3

section ClaimC4

def c4project : Rest.ProjRecord :=
  { id := "1", name := "Mangrove Bay", location := "Goa", area := 50
    ecosystemType := "mangrove", description := "", estimatedCredits := 0
    coordinates := "", ownerAddress := adminA, status := "pending"
    createdAt := "2024-01-01T00:00:00Z", owner := adminA, actualCredits := 0
    verifiedAt := "", approvedAt := "", rejectedAt := "", rejectionReason := ""
    suspendedAt := "", suspensionReason := "", lastModified := "" }

def c4state : Rest.RestState :=
  { projects := [c4project], stakeholders := [], mrvData := [] }

def c4body : Rest.MrvBody :=
  { projectId := "1", dataHash := "hash-0123456789", coordinates := "10.5,76.2"
    carbonSequestration := 5, collectorAddress := adminA }

/-- C4 counterexample: the only stored project has status pending, yet
POST /mrv-data accepts the submission with 201 and appends the record;
the route validates the body but never looks the project up, so a
submission against a pending (or entirely absent) project is not
refused.  The claim is false at this input. -/
theorem c4_rest_submit_skips_project_check :
    (Rest.findProject c4state ("1")).map (fun p => p.status) = some ("pending") ∧
    (Rest.postMrvData c4state c4body ("77") ("2024-03-01T00:00:00Z")).1 =
      Rest.ApiResponse.ok 201 ("77") ∧
    ((Rest.postMrvData c4state c4body ("77") ("2024-03-01T00:00:00Z")).2.mrvData.length = 1) :=
  ⟨rfl, rfl, rfl⟩

end ClaimC4

section ClaimC5

def c5project : Rest.ProjRecord := { c4project with status := "active" }

def c5state : Rest.RestState :=
  { projects := [c5project], stakeholders := [], mrvData := [] }

def c5body : Rest.MrvBody :=
  { projectId := "1", dataHash := "hash-0123456789", coordinates := "10.5,76.2"
    carbonSequestration := mkRat 25 2, collectorAddress := adminA }

/-- The REST state after submitting MRV data with carbonSequestration
12.5 against the active project and then verifying it. -/
def c5afterSubmit : Rest.RestState :=
  (Rest.postMrvData c5state c5body ("77") ("2024-03-01T00:00:00Z")).2

def c5afterVerify : Rest.RestState :=
  (Rest.putMrvVerify c5afterSubmit ("77") c3body ("2024-03-02T00:00:00Z")).2

/-- C5 counterexample: running the spec scenario through the REST layer
(submit MRVData with carbonSequestration 12.5 against an active project
whose actualCredits is 0, then verify it) marks the MRV record verified
but leaves the project record untouched: actualCredits is still 0, not
12.5, because PUT /mrv-data/:id/verify reads and writes only
mrv_data.json.  The claim is false at this input. -/
theorem c5_rest_verify_never_accrues_credits :
    (Rest.postMrvData c5state c5body ("77") ("2024-03-01T00:00:00Z")).1 =
      Rest.ApiResponse.ok 201 ("77") ∧
    ((Rest.putMrvVerify c5afterSubmit ("77") c3body ("2024-03-02T00:00:00Z")).1 ≠
      Rest.ApiResponse.notFound ("MRV data not found")) ∧
    (c5afterVerify.mrvData.map (fun d => d.status) = [("verified")]) ∧
    ((Rest.findProject c5afterVerify ("1")).map (fun p => p.actualCredits) = some 0) ∧
    (0 : Rat) ≠ mkRat 25 2 :=
  ⟨rfl, by decide, rfl, rfl, by decide⟩

end ClaimC5

section ClaimC8

def c8stakeholder : Rest.StakRecord :=
  { id := "5", name := "Al", organization := "Org", stakeholderType := "NGO"
    location := "Goa", status := "approved"
    registrationDate := "2024-01-01T00:00:00Z"
    approvedAt := "2024-01-02T00:00:00Z", approvedBy := adminA }

def c8state : Rest.RestState :=
  { projects := [], stakeholders := [c8stakeholder], mrvData := [] }

def c8body : Rest.AdminBody :=
  { action := "approve", targetId := "5", reason := none, adminAddress := adminB }

/-- C8 counterexample: the stakeholder is already approved, yet
PUT /stakeholders/:id/approve answers 200 and re-applies the approval,
overwriting approvedAt and approvedBy, instead of rejecting the second
approval.  The one-way part of the claim survives (status remains
approved), but the claim that a second approval is rejected is false at
this input. -/
theorem c8_rest_reapproves_approved_stakeholder :
    c8stakeholder.status = "approved" ∧
    (Rest.putStakeholderApprove c8state ("5") c8body ("2024-03-01T00:00:00Z")).1 =
      Rest.ApiResponse.ok 200
        (Rest.approveStakRecord ("2024-03-01T00:00:00Z") adminB c8stakeholder) ∧
    Rest.approveStakRecord ("2024-03-01T00:00:00Z") adminB c8stakeholder ≠ c8stakeholder :=
  ⟨rfl, rfl, by decide⟩

end ClaimC8

section ClaimC9

def c9body : Rest.ProjectBody :=
  { name := "Coastal Wetland Project", location := "Kerala", area := 100
    ecosystemType := "coastalWetland", description := none
    estimatedCredits := none, coordinates := none, ownerAddress := none }

/-- C9 counterexample: a registration request whose every other field is
valid and whose ecosystemType is coastalWetland, a member of the claimed
accepted set, is rejected by validateProjectRegistration with exactly
the invalid-ecosystem message, so POST /projects answers 400 and
persists nothing.  The claim that all five types are accepted is false
at this input. -/
theorem c9_coastal_wetland_rejected :
    Rest.validateProjectRegistration c9body = [("Invalid ecosystem type")] ∧
    (Rest.postProjects { projects := [], stakeholders := [], mrvData := [] }
        c9body ("77") ("2024-03-01T00:00:00Z")).1 =
      Rest.ApiResponse.validationFailed [("Invalid ecosystem type")] ∧
    (Rest.postProjects { projects := [], stakeholders := [], mrvData := [] }
        c9body ("77") ("2024-03-01T00:00:00Z")).2.projects = [] :=
  ⟨rfl, rfl, rfl⟩

end ClaimC9


section ClaimC2

/-- C2: in the registry contract, a project's actualCarbonCredits is
monotonically non-decreasing along every call sequence from any
reachable state, and the only call that changes it is a verifyMRVData
call whose outcome is Verified, which adds exactly the stored record's
carbonSequestration to the record's own project.  The REST layer never
writes actualCredits at all, so the claim holds there vacuously. -/
theorem c2_actualCredits_monotone :
    ∀ s : BCMain.Registry, BCMain.Reachable s →
      (∀ (ops : List BCMain.Op) (pid : Nat),
        (s.projects pid).actualCarbonCredits ≤
          ((ops.foldl BCMain.applyOp s).projects pid).actualCarbonCredits) ∧
      (∀ (op : BCMain.Op) (pid : Nat),
        ((BCMain.applyOp s op).projects pid).actualCarbonCredits =
            (s.projects pid).actualCarbonCredits ∨
        (∃ sender now dataId notes,
          op = BCMain.Op.verifyMRVData sender now dataId BCMain.MRVStatus.Verified notes ∧
          (s.mrvData dataId).projectId = pid ∧
          ((BCMain.applyOp s op).projects pid).actualCarbonCredits =
            (s.projects pid).actualCarbonCredits +
              (s.mrvData dataId).carbonSequestration)) := by
  intro s hre
  have hWF := BCMain.wf_reachable hre
  exact ⟨fun ops pid => BCMain.credits_mono ops s pid hWF,
         fun op pid => BCMain.credits_step s op pid hWF⟩

/-- A concrete reachable contract state: a stakeholder registers and is
approved, registers project 1, the project is moved to Active, and MRV
record 1 with carbonSequestration 1250 is submitted against it. -/
def mainOps : List BCMain.Op :=
  [ .registerStakeholder 7 10 ("al") ("org") .NGO ("goa") ("c") ("p")
  , .approveStakeholder 1 11 1
  , .registerProject 7 12 ("bay") ("d") ("goa") ("co") 50 .Mangrove [] 100
  , .updateProjectStatus 1 13 1 .Active ("ok")
  , .submitMRVData 7 14 1 ("hash") ("co") ("m") 1250 5 10 [] ]

def mainState : BCMain.Registry := mainOps.foldl BCMain.applyOp BCMain.init

theorem c2_actualCredits_monotone_witness :
    (mainState.projects 1).actualCarbonCredits ≤
      (([BCMain.Op.verifyMRVData 1 20 1 BCMain.MRVStatus.Verified ("")].foldl
          BCMain.applyOp mainState).projects 1).actualCarbonCredits :=
  (c2_actualCredits_monotone mainState ⟨mainOps, rfl⟩).1
    [BCMain.Op.verifyMRVData 1 20 1 BCMain.MRVStatus.Verified ("")] 1

end ClaimC2

section ClaimC3Amended

/-- C3 amended: in the registry contract, attempting verifyMRVData on a
record whose status is already Verified or Rejected reverts (error
result) and, as a reverted transaction, leaves the whole state and so
every field of the record unchanged.  The REST endpoint (see the C3
counterexample) performs no such check. -/
theorem c3_contract_verify_terminal_rejects :
    ∀ (s : BCMain.Registry) (sender now dataId : Nat) (vs : BCMain.MRVStatus)
      (notes : String),
      ((s.mrvData dataId).status = BCMain.MRVStatus.Verified ∨
        (s.mrvData dataId).status = BCMain.MRVStatus.Rejected) →
      (∃ e, BCMain.verifyMRVData s sender now dataId vs notes = Except.error e) ∧
      BCMain.applyOp s (BCMain.Op.verifyMRVData sender now dataId vs notes) = s := by
  intro s sender now dataId vs notes hterm
  have hnot : ¬ ((s.mrvData dataId).status = BCMain.MRVStatus.Submitted ∨
      (s.mrvData dataId).status = BCMain.MRVStatus.UnderReview) := by
    rcases hterm with h | h <;> rw [h] <;> rintro (hc | hc) <;>
      exact BCMain.MRVStatus.noConfusion hc
  have herr : ∃ e, BCMain.verifyMRVData s sender now dataId vs notes = Except.error e := by
    unfold BCMain.verifyMRVData
    by_cases hid : (s.mrvData dataId).id = 0
    · rw [if_pos hid]
      exact ⟨_, rfl⟩
    · rw [if_neg hid, if_pos hnot]
      exact ⟨_, rfl⟩
  obtain ⟨e, he⟩ := herr
  refine ⟨⟨e, he⟩, ?_⟩
  unfold BCMain.applyOp
  rw [show BCMain.runOp s (BCMain.Op.verifyMRVData sender now dataId vs notes) =
        BCMain.verifyMRVData s sender now dataId vs notes from rfl, he]

/-- A contract state holding MRV record 5 already in Verified status. -/
def c3reg : BCMain.Registry :=
  { BCMain.init with
      mrvData := BCMain.upd BCMain.init.mrvData 5
        { BCMain.zeroMRVData with
            id := 5, projectId := 1, timestamp := 3
            status := BCMain.MRVStatus.Verified, carbonSequestration := 7 } }

theorem c3_contract_verify_terminal_rejects_witness :
    BCMain.applyOp c3reg
      (BCMain.Op.verifyMRVData 1 9 5 BCMain.MRVStatus.UnderReview ("")) = c3reg :=
  (c3_contract_verify_terminal_rejects c3reg 1 9 5 BCMain.MRVStatus.UnderReview ("")
    (Or.inl rfl)).2

end ClaimC3Amended

section ClaimC4Amended

/-- C4 amended: in the registry contract, submitMRVData succeeds only
when the referenced project exists and its status is Active or Verified,
and a submission against a project in Pending, Suspended, Completed or
Rejected status reverts.  The REST endpoint (see the C4 counterexample)
never looks at the project. -/
theorem c4_contract_submit_requires_active_or_verified :
    ∀ (s : BCMain.Registry) (sender now projectId : Nat) (dh co mu : String)
      (c b a : Nat) (hs : List String),
      (∀ s2, BCMain.submitMRVData s sender now projectId dh co mu c b a hs =
          Except.ok s2 →
        (s.projects projectId).id ≠ 0 ∧
        ((s.projects projectId).status = BCMain.ProjectStatus.Active ∨
          (s.projects projectId).status = BCMain.ProjectStatus.Verified)) ∧
      (((s.projects projectId).status = BCMain.ProjectStatus.Pending ∨
        (s.projects projectId).status = BCMain.ProjectStatus.Suspended ∨
        (s.projects projectId).status = BCMain.ProjectStatus.Completed ∨
        (s.projects projectId).status = BCMain.ProjectStatus.Rejected) →
        ∃ e, BCMain.submitMRVData s sender now projectId dh co mu c b a hs =
          Except.error e) := by
  intro s sender now projectId dh co mu c b a hs
  constructor
  · intro s2 h
    unfold BCMain.submitMRVData at h
    split_ifs at h with g1 g2 g3 g4 g5
    exact ⟨g1, g3⟩
  · intro hbad
    have hnot : ¬ ((s.projects projectId).status = BCMain.ProjectStatus.Active ∨
        (s.projects projectId).status = BCMain.ProjectStatus.Verified) := by
      rcases hbad with h | h | h | h <;> rw [h] <;> rintro (hc | hc) <;>
        exact BCMain.ProjectStatus.noConfusion hc
    unfold BCMain.submitMRVData
    by_cases g1 : (s.projects projectId).id = 0
    · rw [if_pos g1]
      exact ⟨_, rfl⟩
    · rw [if_neg g1]
      by_cases g2 : (s.projects projectId).isActive
      · rw [if_neg (not_not_intro g2), if_pos hnot]
        exact ⟨_, rfl⟩
      · rw [if_pos g2]
        exact ⟨_, rfl⟩

/-- A contract state holding project 1 in Pending status. -/
def c4reg : BCMain.Registry :=
  { BCMain.init with
      projects := BCMain.upd BCMain.init.projects 1
        { BCMain.zeroProject with
            id := 1, status := BCMain.ProjectStatus.Pending, isActive := true }
      projectIdCounter := 1 }

theorem c4_contract_submit_requires_active_or_verified_witness :
    ∃ e, BCMain.submitMRVData c4reg 1 9 1 ("hash") ("co") ("m") 5 1 1 [] =
      Except.error e :=
  (c4_contract_submit_requires_active_or_verified c4reg 1 9 1 ("hash") ("co") ("m")
    5 1 1 []).2 (Or.inl rfl)

end ClaimC4Amended

section ClaimC5Amended

/-- C5 amended: in the registry contract, verifying a submitted MRVData
record whose carbonSequestration is c against a project whose
actualCarbonCredits is 0 succeeds, sets the project's
actualCarbonCredits to c, and raises the owning stakeholder's
reputationScore by the fixed delta 10 whenever the prior score is at
least 10 below the 1000 cap.  The 12.5-ton figure of the spec scenario
is the scaled integer 1250 in the contract's fixed-point convention
(tons times 100); the REST layer (see the C5 counterexample) never
accrues credits at all. -/
theorem c5_contract_verified_mrv_accrues :
    ∀ (s : BCMain.Registry) (sender now dataId : Nat) (notes : String)
      (pid a idx c r : Nat),
      (s.mrvData dataId).id ≠ 0 →
      (s.mrvData dataId).status = BCMain.MRVStatus.Submitted →
      (s.mrvData dataId).projectId = pid →
      (s.mrvData dataId).carbonSequestration = c →
      (s.projects pid).actualCarbonCredits = 0 →
      (s.projects pid).owner = a →
      s.stakeholderByAddress a = idx →
      idx ≠ 0 →
      (s.stakeholders idx).reputationScore = r →
      r + 10 ≤ 1000 →
      ∃ s2, BCMain.verifyMRVData s sender now dataId BCMain.MRVStatus.Verified notes =
          Except.ok s2 ∧
        (s2.projects pid).actualCarbonCredits = c ∧
        (s2.stakeholders idx).reputationScore = r + 10 := by
  intro s sender now dataId notes pid a idx c r hid hsub hpid hcs hacc howner hba hidx
    hscore hcap
  obtain ⟨s2, hok⟩ := BCMain.verifyMRVData_succeeds hid (Or.inl hsub)
    (show ¬ BCMain.MRVStatus.Verified = BCMain.MRVStatus.Submitted by decide)
  obtain ⟨_, _, _, _, _, _, _, _, _, hpCred, _, _, _, _, hstHit⟩ :=
    BCMain.verifyMRVData_verified_ok rfl hok
  refine ⟨s2, hok, ?_, ?_⟩
  · rw [hpid] at hpCred
    rw [hpCred, hacc, hcs]
    omega
  · have howner2 : (s.projects ((s.mrvData dataId).projectId)).owner = a := by
      rw [hpid]
      exact howner
    have hba2 : s.stakeholderByAddress
        ((s.projects ((s.mrvData dataId).projectId)).owner) = idx := by
      rw [howner2]
      exact hba
    have hhit := hstHit (by rw [hba2]; exact hidx)
    rw [hba2] at hhit
    rw [hhit]
    show BCMain.repStep (s.stakeholders idx).reputationScore true = r + 10
    rw [hscore]
    have hrfl : BCMain.repStep r true = if r + 10 > 1000 then 1000 else r + 10 := rfl
    rw [hrfl, if_neg (by omega)]

/-- A contract state with an Active project 1 (credits 0, owner 7), a
submitted MRV record 5 with carbonSequestration 1250 (12.5 tons scaled
by 100) and the owner stakeholder at index 3 with score 500. -/
def c5reg : BCMain.Registry :=
  { BCMain.init with
      projects := BCMain.upd BCMain.init.projects 1
        { BCMain.zeroProject with
            id := 1, status := BCMain.ProjectStatus.Active, isActive := true, owner := 7 }
      mrvData := BCMain.upd BCMain.init.mrvData 5
        { BCMain.zeroMRVData with
            id := 5, projectId := 1, timestamp := 3, dataHash := "h"
            carbonSequestration := 1250, status := BCMain.MRVStatus.Submitted }
      stakeholderByAddress := BCMain.upd BCMain.init.stakeholderByAddress 7 3
      stakeholders := BCMain.upd BCMain.init.stakeholders 3
        { BCMain.zeroStakeholder with
            id := 3, stakeholderAddress := 7, isApproved := true, reputationScore := 500 }
      projectIdCounter := 1, mrvDataIdCounter := 5, stakeholderIdCounter := 3 }

theorem c5_contract_verified_mrv_accrues_witness :
    ∃ s2, BCMain.verifyMRVData c5reg 9 30 5 BCMain.MRVStatus.Verified ("") =
        Except.ok s2 ∧
      (s2.projects 1).actualCarbonCredits = 1250 ∧
      (s2.stakeholders 3).reputationScore = 510 :=
  c5_contract_verified_mrv_accrues c5reg 9 30 5 ("") 1 7 3 1250 500
    (by decide) rfl rfl rfl rfl rfl rfl (by decide) rfl (by decide)

end ClaimC5Amended

section ClaimC6

/-- C6: a project-registration request with a non-positive area or an
empty name or location fails validateProjectRegistration with a
non-empty field-level error list, POST /projects answers 400 with those
details, and the projects collection is returned unchanged, so no record
is persisted. -/
theorem c6_invalid_registration_rejected :
    ∀ (s : Rest.RestState) (b : Rest.ProjectBody) (idStr nowIso : String),
      (b.area ≤ 0 ∨ b.name = "" ∨ b.location = "") →
      ∃ details, details ≠ [] ∧
        Rest.postProjects s b idStr nowIso =
          (Rest.ApiResponse.validationFailed details, s) := by
  intro s b idStr nowIso hbad
  have hne : Rest.validateProjectRegistration b ≠ [] := by
    intro h0
    rw [Rest.validateProjectRegistration_eq_nil] at h0
    obtain ⟨hn, hl, ha, _⟩ := h0
    rcases hbad with hb | hb | hb
    · have h110 := (Rest.areaErrors_eq_nil.mp ha).1
      exact absurd (le_trans h110 hb) (by decide)
    · exact (Rest.nameErrors_eq_nil.mp hn).1 hb
    · exact (Rest.locationErrors_eq_nil.mp hl).1 hb
  refine ⟨Rest.validateProjectRegistration b, hne, ?_⟩
  unfold Rest.postProjects
  rw [if_pos hne]

/-- A registration request with a negative area and all other fields
valid. -/
def c6body : Rest.ProjectBody :=
  { name := "Mangrove Bay", location := "Goa, India", area := mkRat (-1) 1
    ecosystemType := "mangrove", description := none
    estimatedCredits := none, coordinates := none, ownerAddress := none }

theorem c6_invalid_registration_rejected_witness :
    ∃ details, details ≠ [] ∧
      Rest.postProjects { projects := [], stakeholders := [], mrvData := [] }
          c6body ("77") ("2024-03-01T00:00:00Z") =
        (Rest.ApiResponse.validationFailed details,
          { projects := [], stakeholders := [], mrvData := [] }) :=
  c6_invalid_registration_rejected
    { projects := [], stakeholders := [], mrvData := [] } c6body
    ("77") ("2024-03-01T00:00:00Z") (Or.inl (by decide))

end ClaimC6

section ClaimC7

/-- C7: stakeholder reputation scores stay within 0..1000 along every
call sequence (the lower bound is inherent in the Nat representation of
the Solidity uint256), a verified MRV outcome applies the fixed
increment 10 clamped at the 1000 cap, a rejected outcome applies the
fixed decrement 20 clamped at 0 (Nat subtraction is exactly the clamped
subtraction), and the decrement is strictly larger than the increment. -/
theorem c7_reputation_clamped :
    (∀ s : BCMain.Registry,
      (∀ i, (s.stakeholders i).reputationScore ≤ 1000) →
      ∀ (ops : List BCMain.Op) (i : Nat),
        (((ops.foldl BCMain.applyOp s).stakeholders i).reputationScore ≤ 1000)) ∧
    (∀ sc, BCMain.repStep sc true = min (sc + 10) 1000) ∧
    (∀ sc, BCMain.repStep sc false = sc - 20) ∧
    (10 : Nat) < 20 := by
  refine ⟨?_, ?_, ?_, by omega⟩
  · intro s h ops i
    exact BCMain.rep_le_foldl ops s h i
  · intro sc
    have hrfl : BCMain.repStep sc true = if sc + 10 > 1000 then 1000 else sc + 10 := rfl
    rw [hrfl, Nat.min_def]
    split_ifs <;> omega
  · intro sc
    have hrfl : BCMain.repStep sc false = if sc < 20 then 0 else sc - 20 := rfl
    rw [hrfl]
    split_ifs <;> omega

theorem c7_reputation_clamped_witness :
    ((mainOps.foldl BCMain.applyOp BCMain.init).stakeholders 1).reputationScore ≤ 1000 :=
  c7_reputation_clamped.1 BCMain.init (fun _ => Nat.zero_le 1000) mainOps 1

end ClaimC7

section ClaimC8Amended

/-- C8 amended: in the registry contract, approval is one-way: along
every call sequence from a reachable state an approved stakeholder stays
approved, and calling approveStakeholder on an already approved (or
nonexistent) stakeholder reverts instead of being applied a second time.
The REST endpoint (see the C8 counterexample) keeps the stakeholder
approved but re-applies the approval, overwriting approvedAt and
approvedBy. -/
theorem c8_contract_approval_one_way :
    ∀ s : BCMain.Registry, BCMain.Reachable s → ∀ i : Nat,
      (s.stakeholders i).isApproved = true →
      (∀ ops : List BCMain.Op,
        (((ops.foldl BCMain.applyOp s).stakeholders i).isApproved = true)) ∧
      (∀ sender now : Nat,
        ∃ e, BCMain.approveStakeholder s sender now i = Except.error e) := by
  intro s hre i happ
  have hWF := BCMain.wf_reachable hre
  refine ⟨fun ops => BCMain.approved_foldl ops s hWF i happ, ?_⟩
  intro sender now
  unfold BCMain.approveStakeholder
  by_cases g1 : (s.stakeholders i).id = 0
  · rw [if_pos g1]
    exact ⟨_, rfl⟩
  · rw [if_neg g1, if_pos happ]
    exact ⟨_, rfl⟩

theorem c8_contract_approval_one_way_witness :
    ∃ e, BCMain.approveStakeholder mainState 5 99 1 = Except.error e :=
  (c8_contract_approval_one_way mainState ⟨mainOps, rfl⟩ 1 rfl).2 5 99

end ClaimC8Amended

section ClaimC9Amended

/-- C9 amended: the set of ecosystem types validateProjectRegistration
accepts is exactly the four types mangrove, seagrass, saltmarsh and
tidalmarsh: an otherwise valid registration passes validation exactly
when its ecosystemType is one of the four, and every record POST
/projects persists carries one of the four.  coastalWetland, although
present in the main contract's EcosystemType enum, is rejected by the
REST layer (see the C9 counterexample). -/
theorem c9_accepted_ecosystem_types :
    ∀ b : Rest.ProjectBody,
      (Rest.OtherFieldsOk b →
        (Rest.validateProjectRegistration b = [] ↔
          b.ecosystemType ∈ Rest.ecosystemTypes)) ∧
      (∀ (s : Rest.RestState) (idStr nowIso : String) (r : Rest.ProjRecord),
        (Rest.postProjects s b idStr nowIso).1 = Rest.ApiResponse.ok 201 r →
        r.ecosystemType ∈ Rest.ecosystemTypes ∧
        (Rest.postProjects s b idStr nowIso).2.projects = s.projects ++ [r]) := by
  intro b
  have hiff : Rest.OtherFieldsOk b →
      (Rest.validateProjectRegistration b = [] ↔
        b.ecosystemType ∈ Rest.ecosystemTypes) := by
    intro hok
    obtain ⟨h1, h2, h3, h4, h5, h6⟩ := hok
    rw [Rest.validateProjectRegistration_eq_nil]
    constructor
    · rintro ⟨_, _, _, heco, _⟩
      exact (Rest.ecosystemErrors_eq_nil.mp heco).2
    · intro hmem
      exact ⟨h1, h2, h3,
        Rest.ecosystemErrors_eq_nil.mpr ⟨Rest.mem_ecosystemTypes_ne_empty hmem, hmem⟩,
        h4, h5, h6⟩
  refine ⟨hiff, ?_⟩
  intro s idStr nowIso r hr
  unfold Rest.postProjects at hr ⊢
  split_ifs at hr ⊢ with he
  · push_neg at he
    have heco : Rest.ecosystemErrors b = [] :=
      (Rest.validateProjectRegistration_eq_nil.mp he).2.2.2.1
    have hmem := (Rest.ecosystemErrors_eq_nil.mp heco).2
    simp only [Rest.ApiResponse.ok.injEq, Nat.reduceEqDiff, true_and] at hr
    refine ⟨?_, ?_⟩
    · rw [← hr]
      exact hmem
    · exact congrArg (fun p => s.projects ++ [p]) hr

/-- An otherwise valid registration request with ecosystemType
mangrove. -/
def c9goodBody : Rest.ProjectBody :=
  { name := "Mangrove Bay", location := "Goa, India", area := 100
    ecosystemType := "mangrove", description := none
    estimatedCredits := none, coordinates := none, ownerAddress := none }

theorem c9_accepted_ecosystem_types_witness :
    c9goodBody.ecosystemType ∈ Rest.ecosystemTypes :=
  ((c9_accepted_ecosystem_types c9goodBody).1 (by decide)).mp rfl

end ClaimC9Amended

section ClaimC10

/-- C10 amended: in the simplified registry contract of
src/unnamed/part_000, no call ever marks a record stored in a
projectMRVData array as verified: any state satisfying the
array-copies-unverified invariant still satisfies it after any call,
verifyMRVData itself never touches the projectMRVData arrays, and
getProjectMRVData consequently never returns a verified record.  The
claim's phrase that verification mutates only the mrvDataById mapping is
too strong: verifyMRVData also adds the record's carbonSequestration to
the project's actualCredits and to totalCarbonSequestered (see the C10
counterexample). -/
theorem c10_projectMRVData_never_reflects_verification :
    ∀ s : BCSimple.Registry,
      (∀ op : BCSimple.Op,
        BCSimple.shadowInv s → BCSimple.shadowInv (BCSimple.applyOp s op)) ∧
      (∀ sender now dataId : Nat,
        (BCSimple.applyOp s
            (BCSimple.Op.verifyMRVData sender now dataId)).projectMRVData =
          s.projectMRVData) ∧
      (BCSimple.shadowInv s →
        ∀ pid d, d ∈ BCSimple.getProjectMRVData s pid → d.verified = false) :=
  fun s =>
    ⟨fun op h => BCSimple.shadowInv_step s op h,
     fun sender now dataId => BCSimple.verifyMRVData_frame s sender now dataId,
     fun h pid d hd => (h pid d hd).1⟩

/-- The simplified contract state just before verifying MRV record 1: a
stakeholder registered and approved, project 1 made Active, and one MRV
record with carbonSequestration 5 submitted against it. -/
def c10ops : List BCSimple.Op :=
  [ .registerStakeholder 1 10 ("al") ("org") .NGO ("goa")
  , .approveStakeholder 1
  , .registerProject 1 20 ("bay") ("goa") 50 .Mangrove [] 100
  , .changeProjectStatus 25 1 .Active
  , .submitMRVData 1 30 1 ("hash") ("co") 5 ]

def c10before : BCSimple.Registry := c10ops.foldl BCSimple.applyOp BCSimple.init

/-- C10 counterexample: verifying MRV record 1 in the simplified
contract does not mutate only the mrvDataById mapping: it also raises
project 1's actualCredits from 0 to 5 and totalCarbonSequestered from 0
to 5, while the projectMRVData array copy of the record indeed stays
unverified. -/
theorem c10_verify_also_mutates_projects :
    (c10before.projects 1).actualCredits = 0 ∧
    c10before.totalCarbonSequestered = 0 ∧
    ((BCSimple.applyOp c10before
        (BCSimple.Op.verifyMRVData 9 40 1)).projects 1).actualCredits = 5 ∧
    (BCSimple.applyOp c10before
        (BCSimple.Op.verifyMRVData 9 40 1)).totalCarbonSequestered = 5 ∧
    ((BCSimple.applyOp c10before
        (BCSimple.Op.verifyMRVData 9 40 1)).mrvDataById 1).verified = true ∧
    ((BCSimple.applyOp c10before
        (BCSimple.Op.verifyMRVData 9 40 1)).projectMRVData 1).all
      (fun d => !d.verified) = true :=
  ⟨rfl, rfl, rfl, rfl, rfl, rfl⟩

theorem c10_projectMRVData_never_reflects_verification_witness :
    BCSimple.shadowInv
      (BCSimple.applyOp c10before (BCSimple.Op.verifyMRVData 9 40 1)) :=
  (c10_projectMRVData_never_reflects_verification c10before).1
    (BCSimple.Op.verifyMRVData 9 40 1)
    (BCSimple.shadowInv_foldl c10ops BCSimple.init
      (fun _ d hd => absurd hd (List.not_mem_nil d)))

end ClaimC10
